import Mathlib

/-!
Verification development for the gmail-export message pipeline.

Shallow embedding of the MIME walker, body normalizer, header parser
(src/parser.ts) and the redaction engine with its address-detector
(src/sanitizer.ts, src/address-detector.ts).  Strings are modelled as
lists of characters; JavaScript regular expressions are modelled by an
explicit abstract syntax tree together with a backtracking matcher that
follows the ECMAScript semantics (leftmost match, ordered alternation,
greedy and lazy quantifiers, word boundaries, anchors, the
case-insensitivity flag, and the empty-iteration cut in quantifier
loops).
-/

set_option maxRecDepth 2000000

abbrev Str := List Char

/-- JavaScript whitespace for the regex class backslash-s and for
String.prototype.trim: space, tab, line terminators, form feed,
vertical tab, NBSP, BOM and the common unicode space separators. -/
def jsWhitespace (c : Char) : Bool :=
  c = ' ' || c = '\t' || c = '\n' || c = '\r' ||
  c = Char.ofNat 12 || c = Char.ofNat 11 || c = Char.ofNat 0xa0 ||
  c = Char.ofNat 0x1680 ||
  (Char.ofNat 0x2000 ≤ c && c ≤ Char.ofNat 0x200a) ||
  c = Char.ofNat 0x2028 || c = Char.ofNat 0x2029 || c = Char.ofNat 0x202f ||
  c = Char.ofNat 0x205f || c = Char.ofNat 0x3000 || c = Char.ofNat 0xfeff

/-- Word characters for the regex word boundary: ASCII letters, digits
and underscore. -/
def isWordChar (c : Char) : Bool :=
  ('a' ≤ c && c ≤ 'z') || ('A' ≤ c && c ≤ 'Z') || ('0' ≤ c && c ≤ '9') || c = '_'

/-- ASCII lowercasing, as used by String.prototype.toLowerCase on the
inputs this development evaluates. -/
def toLowerStr (s : Str) : Str := s.map Char.toLower

/-- String.prototype.trim: strip JavaScript whitespace from both ends. -/
def jsTrim (s : Str) : Str :=
  ((s.dropWhile jsWhitespace).reverse.dropWhile jsWhitespace).reverse

/-- Array.prototype.join with a separator string. -/
def joinWith (sep : Str) (parts : List Str) : Str := List.intercalate sep parts

/-- One item of a regex character class. -/
inductive CItem where
  | ch (c : Char)
  | range (lo hi : Char)
  | space
  | word
  deriving DecidableEq, Repr

/-- Abstract syntax of the regular expressions used by the repository.
rep is a greedy bounded or unbounded quantifier, lazyRep its lazy
variant; wb is a word boundary, bos and eos the two anchors. -/
inductive RE where
  | eps
  | lit (c : Char)
  | cls (neg : Bool) (items : List CItem)
  | seq (a b : RE)
  | alt (a b : RE)
  | rep (a : RE) (lo : Nat) (hi : Option Nat)
  | lazyRep (a : RE) (lo : Nat) (hi : Option Nat)
  | wb
  | bos
  | eos
  deriving DecidableEq, Repr

def itemMatch0 (it : CItem) (c : Char) : Bool :=
  match it with
  | .ch d => c = d
  | .range lo hi => lo ≤ c && c ≤ hi
  | .space => jsWhitespace c
  | .word => isWordChar c

/-- Class item matching; under the case-insensitivity flag a character
also matches through its simple lower or upper case sibling. -/
def itemMatch (ci : Bool) (it : CItem) (c : Char) : Bool :=
  itemMatch0 it c || (ci && (itemMatch0 it c.toLower || itemMatch0 it c.toUpper))

def clsMatch (ci neg : Bool) (items : List CItem) (c : Char) : Bool :=
  let hit := items.any (fun it => itemMatch ci it c)
  if neg then !hit else hit

def charEqCI (ci : Bool) (p c : Char) : Bool :=
  if ci then p.toLower = c.toLower else p = c

/-- Word boundary test between the previous character (none at the very
start) and the next character (none at the very end). -/
def isBoundary (prev : Option Char) (s : Str) : Bool :=
  let a := match prev with | some c => isWordChar c | none => false
  let b := match s with | c :: _ => isWordChar c | [] => false
  a != b

/-- Backtracking matcher in continuation passing style.  The
continuation receives the new previous character and the remaining
input; the first success in backtracking order is returned, so ordered
alternation, greedy repetition (longest first) and lazy repetition
(shortest first) follow the ECMAScript strategy.  An optional iteration
of a quantifier that consumes nothing is cut, as in ECMAScript.  The
fuel only bounds the recursion depth along one backtracking path and is
chosen far larger than any depth reachable on the inputs evaluated
here. -/
def reRun (ci : Bool) :
    Nat → RE → Option Char → Str → (Option Char → Str → Option (Option Char × Str)) →
    Option (Option Char × Str)
  | 0, _, _, _, _ => none
  | fuel+1, re, prev, s, k =>
    match re with
    | .eps => k prev s
    | .lit c =>
      match s with
      | [] => none
      | c2 :: rest => if charEqCI ci c c2 then k (some c2) rest else none
    | .cls neg items =>
      match s with
      | [] => none
      | c2 :: rest => if clsMatch ci neg items c2 then k (some c2) rest else none
    | .seq a b => reRun ci fuel a prev s (fun p2 s2 => reRun ci fuel b p2 s2 k)
    | .alt a b => (reRun ci fuel a prev s k) <|> (reRun ci fuel b prev s k)
    | .rep a lo hi =>
      if lo = 0 then
        match hi with
        | some 0 => k prev s
        | _ =>
          (reRun ci fuel a prev s (fun p2 s2 =>
            if s2.length = s.length then none
            else reRun ci fuel (.rep a 0 (hi.map (· - 1))) p2 s2 k)) <|> k prev s
      else
        reRun ci fuel a prev s
          (fun p2 s2 => reRun ci fuel (.rep a (lo-1) (hi.map (· - 1))) p2 s2 k)
    | .lazyRep a lo hi =>
      if lo = 0 then
        match hi with
        | some 0 => k prev s
        | _ =>
          (k prev s) <|> (reRun ci fuel a prev s (fun p2 s2 =>
            if s2.length = s.length then none
            else reRun ci fuel (.lazyRep a 0 (hi.map (· - 1))) p2 s2 k))
      else
        reRun ci fuel a prev s
          (fun p2 s2 => reRun ci fuel (.lazyRep a (lo-1) (hi.map (· - 1))) p2 s2 k)
    | .wb => if isBoundary prev s then k prev s else none
    | .bos => match prev with | none => k prev s | some _ => none
    | .eos => match s with | [] => k prev s | _ :: _ => none

def matchFuel : Nat := 1000000

/-- Try to match re at the current position; on success return the last
consumed character and the remaining input. -/
def matchAt (ci : Bool) (re : RE) (prev : Option Char) (s : Str) :
    Option (Option Char × Str) :=
  reRun ci matchFuel re prev s (fun p2 s2 => some (p2, s2))

/-- One pass of a global regex over a string: every non-overlapping
leftmost match is replaced by repl and counted.  This is the common
engine behind String.prototype.match with the global flag (the count of
the array it returns) and String.prototype.replace with a global regex,
which enumerate exactly the same match sequence.  An empty match emits
the replacement and advances one character, as in ECMAScript. -/
def scanAll (ci : Bool) (re : RE) (repl : Str) : Nat → Option Char → Str → Str × Nat
  | 0, _, s => (s, 0)
  | fuel+1, prev, s =>
    match matchAt ci re prev s with
    | none =>
      match s with
      | [] => ([], 0)
      | c :: rest =>
        let r := scanAll ci re repl fuel (some c) rest
        (c :: r.1, r.2)
    | some (p2, rem) =>
      if rem.length == s.length then
        match s with
        | [] => (repl, 1)
        | c :: rest =>
          let r := scanAll ci re repl fuel (some c) rest
          (repl ++ c :: r.1, r.2 + 1)
      else
        let r := scanAll ci re repl fuel p2 rem
        (repl ++ r.1, r.2 + 1)

/-- Replace every match of a global regex and count the matches. -/
def applyRegex (ci : Bool) (re : RE) (repl : Str) (s : Str) : Str × Nat :=
  scanAll ci re repl (s.length + 1) none s

def findFirstAux (ci : Bool) (re : RE) : Nat → Option Char → Str → Option Str
  | 0, _, _ => none
  | fuel+1, prev, s =>
    match matchAt ci re prev s with
    | some (_, rem) => some (s.take (s.length - rem.length))
    | none =>
      match s with
      | [] => none
      | c :: rest => findFirstAux ci re fuel (some c) rest

/-- First (leftmost) match of a regex in a string, as String.prototype.
match without the global flag; returns the matched substring. -/
def findFirst (ci : Bool) (re : RE) (s : Str) : Option Str :=
  findFirstAux ci re (s.length + 1) none s

/-- RegExp.prototype.test. -/
def regexTest (ci : Bool) (re : RE) (s : Str) : Bool :=
  (findFirst ci re s).isSome

/-! Combinators for transcribing regex literals. -/

def rstr (s : String) : RE := (s.toList.map RE.lit).foldr .seq .eps

def rseq (l : List RE) : RE := l.foldr .seq .eps

def ralt : List RE → RE
  | [] => .cls false []
  | [r] => r
  | r :: rest => .alt r (ralt rest)

/-- Ordered alternation of literal words, as a pattern fragment built by
joining words with the pipe character. -/
def oneOf (ws : List String) : RE := ralt (ws.map rstr)

def cc (l : List CItem) : RE := .cls false l
def ncc (l : List CItem) : RE := .cls true l

def star (r : RE) : RE := .rep r 0 none
def plus1 (r : RE) : RE := .rep r 1 none
def opt (r : RE) : RE := .rep r 0 (some 1)
def rept (r : RE) (lo hi : Nat) : RE := .rep r lo (some hi)
def reptMin (r : RE) (lo : Nat) : RE := .rep r lo none
def lstar (r : RE) : RE := .lazyRep r 0 none

def dig : CItem := .range '0' '9'
def upperI : CItem := .range 'A' 'Z'
def lowerI : CItem := .range 'a' 'z'
def digitC : RE := cc [dig]
def wsC : RE := cc [.space]
def wsStar : RE := star wsC
def wsPlus : RE := plus1 wsC
def anyAll : RE := ncc []

/-- The apostrophe character. -/
def aposC : Char := Char.ofNat 39

/-- Fragment for the recurring context suffix of many patterns, written
in the source as a group of optional hash or number or no-dot, an
optional colon and surrounding optional whitespace. -/
def numCtx : RE :=
  rseq [wsStar, opt (ralt [rstr "#", rstr "number", .seq (rstr "no") (opt (.lit '.'))]),
        opt (.lit ':'), wsStar]


/-! Embedding of src/parser.ts. -/

/-- Regex for an email-like substring, src/parser.ts line 16, with the
case-insensitivity flag. -/
def emailRe : RE :=
  rseq [plus1 (cc [upperI, dig, .ch '.', .ch '_', .ch '%', .ch '+', .ch '-']),
        .lit '@',
        plus1 (cc [upperI, dig, .ch '.', .ch '-']),
        .lit '.',
        reptMin (cc [upperI]) 2]

/-- Helper for the anchored angle form of parseEmail, src/parser.ts
line 8: raw matched against caret, greedy dot-star as group one, an
opening angle, one or more non-closing-angle characters as group two, a
closing angle, dollar.  The greedy group picks the largest split point
whose remainder fits; equivalently, scanning the input without its
final closing angle from the right, the region collects characters
until the first opening angle that already has at least one region
character, failing when a closing angle is seen first. -/
def angleSplitAux : Str → Str → Option (Str × Str)
  | [], _ => none
  | c :: rest, region =>
    if c = '>' then none
    else if c = '<' && !region.isEmpty then some (rest.reverse, region)
    else angleSplitAux rest (c :: region)

def angleSplit (s : Str) : Option (Str × Str) :=
  match s.getLast? with
  | some c => if c = '>' then angleSplitAux s.dropLast.reverse [] else none
  | none => none

/-- Remove every occurrence of one character, a global single character
class replace with the empty string. -/
def removeChar (c : Char) (s : Str) : Str := s.filter (fun d => d ≠ c)

/-- String.prototype.replace with a plain string pattern: replace the
first occurrence only. -/
def replaceFirstStr (pat repl : Str) : Str → Str
  | [] => if pat.isEmpty then repl else []
  | c :: rest =>
    if pat.isPrefixOf (c :: rest) then repl ++ (c :: rest).drop pat.length
    else c :: replaceFirstStr pat repl rest

/-- Fallback branch of parseEmail, src/parser.ts lines 15 to 18: first
email-like substring lowercased; the display name is the raw value with
that substring removed and angle brackets and double quotes stripped,
or empty when no email was found. -/
def parseEmailFallback (s : Str) : Str × Str :=
  let email := match findFirst true emailRe s with
               | some m => toLowerStr m
               | none => []
  let name := if !email.isEmpty then
      jsTrim (removeChar '"' (removeChar '>' (removeChar '<' (replaceFirstStr email [] s))))
    else []
  (name, email)

/-- parseEmail from src/parser.ts lines 6 to 19, returning the pair of
display name and email address. -/
def parseEmail (raw : Str) : Str × Str :=
  let s := jsTrim raw
  match angleSplit s with
  | some (m1, m2) =>
    if !m1.isEmpty && !m2.isEmpty then
      (jsTrim (removeChar '"' m1), toLowerStr (jsTrim m2))
    else parseEmailFallback s
  | none => parseEmailFallback s

/-- domainFromEmail from src/parser.ts lines 21 to 24: substring after
the first at-sign, lowercased; empty when there is none. -/
def domainFromEmail (email : Str) : Str :=
  match email.findIdx? (fun c => c = '@') with
  | some i => toLowerStr (email.drop (i+1))
  | none => []

/-- Body record of a MIME part; size is optional so that the typeof
number check of the source is observable. -/
structure MessagePartBody where
  attachmentId : Option Str
  size : Option Int
  data : Option Str
  deriving DecidableEq, Repr

/-- One node of the message part tree.  Absent child arrays are
modelled as the empty list, matching the source idiom that reads
part.parts with an empty array default. -/
inductive MessagePart where
  | mk (mimeType : Option Str) (filename : Option Str)
       (body : Option MessagePartBody) (parts : List MessagePart)

def MessagePart.mimeType : MessagePart → Option Str | .mk m _ _ _ => m
def MessagePart.filename : MessagePart → Option Str | .mk _ f _ _ => f
def MessagePart.body : MessagePart → Option MessagePartBody | .mk _ _ b _ => b
def MessagePart.parts : MessagePart → List MessagePart | .mk _ _ _ ps => ps

/-- Trimmed filename of a part, src/parser.ts line 48. -/
def partFilename (p : MessagePart) : Str := jsTrim (p.filename.getD [])

/-- Attachment id of a part body, src/parser.ts line 49. -/
def partAttachmentId (p : MessagePart) : Option Str := p.body.bind (·.attachmentId)

/-- Size of a part body when it is a number, else zero, line 50. -/
def partSize (p : MessagePart) : Int := (p.body.bind (·.size)).getD 0

/-- Inline data of a part body with empty default, line 162. -/
def partData (p : MessagePart) : Str := (p.body.bind (·.data)).getD []

/-- The attachment test of collectAttachmentTypes, src/parser.ts line
52: nonempty trimmed filename and an attachment id or positive size. -/
def looksLikeAttachment (p : MessagePart) : Bool :=
  !(partFilename p).isEmpty && ((partAttachmentId p).isSome || partSize p > 0)

/-- Extension regex of src/parser.ts line 55: a dot followed by one to
ten lowercase alphanumeric characters at the end of the string. -/
def extRe : RE := rseq [.lit '.', rept (cc [lowerI, dig]) 1 10, .eos]

/-- Captured group of the extension regex on a lowercased name: the
whole match without its leading dot. -/
def extMatch (lowerName : Str) : Option Str :=
  (findFirst false extRe lowerName).map (fun m => m.drop 1)

/-- Recorded extension of an attachment part, src/parser.ts lines 55 to
58: matched filename suffix, else nonempty mime type lowercased, else
the literal unknown. -/
def extOf (p : MessagePart) : Str :=
  match extMatch (toLowerStr (partFilename p)) with
  | some e => e
  | none =>
    match p.mimeType with
    | some m => if !m.isEmpty then toLowerStr m else "unknown".toList
    | none => "unknown".toList

/-- Set.prototype.add on an insertion ordered set of strings. -/
def setAdd (l : List Str) (x : Str) : List Str := if l.contains x then l else l ++ [x]

mutual
/-- The walk of collectAttachmentTypes, src/parser.ts lines 45 to 63:
process the node, then its children in order. -/
def walkAtt : MessagePart → List Str × Nat → List Str × Nat
  | .mk m f b ps, acc =>
    let p := MessagePart.mk m f b ps
    let acc1 := if looksLikeAttachment p then (setAdd acc.1 (extOf p), acc.2 + 1) else acc
    walkAttList ps acc1
def walkAttList : List MessagePart → List Str × Nat → List Str × Nat
  | [], acc => acc
  | p :: ps, acc => walkAttList ps (walkAtt p acc)
end

/-- Lexicographic comparison by code points, the default comparator of
Array.prototype.sort on strings. -/
def strLe : Str → Str → Bool
  | [], _ => true
  | _ :: _, [] => false
  | a :: as2, b :: bs => if a = b then strLe as2 bs else decide (a < b)

def insSorted (x : Str) : List Str → List Str
  | [] => [x]
  | y :: ys => if strLe y x then y :: insSorted x ys else x :: y :: ys

/-- Array.prototype.sort with the default string comparator, realized
as an insertion sort. -/
def sortStrs (l : List Str) : List Str := l.foldl (fun acc x => insSorted x acc) []

structure AttachmentInfo where
  hasAttachment : Bool
  types : List Str
  count : Nat
  deriving DecidableEq, Repr

/-- collectAttachmentTypes from src/parser.ts lines 35 to 68. -/
def collectAttachmentTypes (payload : Option MessagePart) : AttachmentInfo :=
  let res := match payload with
             | none => (([] : List Str), 0)
             | some p => walkAtt p ([], 0)
  { hasAttachment := !res.1.isEmpty, types := sortStrs res.1, count := res.2 }

mutual
/-- Pre-order list of the nodes of a part tree. -/
def partsList : MessagePart → List MessagePart
  | .mk m f b ps => .mk m f b ps :: partsListL ps
def partsListL : List MessagePart → List MessagePart
  | [] => []
  | p :: ps => partsList p ++ partsListL ps
end

/-- Value of one base64 alphabet character. -/
def b64Val (c : Char) : Option Nat :=
  if 'A' ≤ c && c ≤ 'Z' then some (c.toNat - 65)
  else if 'a' ≤ c && c ≤ 'z' then some (c.toNat - 97 + 26)
  else if '0' ≤ c && c ≤ '9' then some (c.toNat - 48 + 52)
  else if c = '+' then some 62
  else if c = '/' then some 63
  else none

/-- Pack base64 sextets into bytes; a trailing group of two or three
sextets yields one or two bytes and a lone trailing sextet is dropped.
Modelled from the Node Buffer base64 decoder, which skips padding signs
and bytes outside the alphabet instead of failing. -/
def sextetsToBytes : List Nat → List Nat
  | a :: b :: c :: d :: rest =>
    (a * 4 + b / 16) :: (b % 16 * 16 + c / 4) :: (c % 4 * 64 + d) :: sextetsToBytes rest
  | [a, b, c] => [a * 4 + b / 16, b % 16 * 16 + c / 4]
  | [a, b] => [a * 4 + b / 16]
  | _ => []

def replacementChar : Char := Char.ofNat 0xfffd

def isCont (b : Nat) : Bool := 128 ≤ b && b < 192

/-- Worker for the UTF-8 decoder; the fuel is an upper bound on the
number of decoding steps, each of which consumes at least one byte. -/
def utf8DecodeAux : Nat → List Nat → Str
  | 0, _ => []
  | fuel+1, bytes =>
    match bytes with
    | [] => []
    | b :: rest =>
      if b < 128 then Char.ofNat b :: utf8DecodeAux fuel rest
      else if b < 192 then replacementChar :: utf8DecodeAux fuel rest
      else if b < 224 then
        match rest with
        | b2 :: rest2 =>
          if isCont b2 then
            let cp := (b - 192) * 64 + (b2 - 128)
            (if 128 ≤ cp then Char.ofNat cp else replacementChar) :: utf8DecodeAux fuel rest2
          else replacementChar :: utf8DecodeAux fuel rest
        | [] => [replacementChar]
      else if b < 240 then
        match rest with
        | b2 :: b3 :: rest3 =>
          if isCont b2 && isCont b3 then
            let cp := (b - 224) * 4096 + (b2 - 128) * 64 + (b3 - 128)
            (if 2048 ≤ cp && !(55296 ≤ cp && cp ≤ 57343) then Char.ofNat cp
             else replacementChar) :: utf8DecodeAux fuel rest3
          else replacementChar :: utf8DecodeAux fuel rest
        | _ => replacementChar :: utf8DecodeAux fuel rest
      else if b < 248 then
        match rest with
        | b2 :: b3 :: b4 :: rest4 =>
          if isCont b2 && isCont b3 && isCont b4 then
            let cp := (b - 240) * 262144 + (b2 - 128) * 4096 + (b3 - 128) * 64 + (b4 - 128)
            (if 65536 ≤ cp && cp ≤ 1114111 then Char.ofNat cp
             else replacementChar) :: utf8DecodeAux fuel rest4
          else replacementChar :: utf8DecodeAux fuel rest
        | _ => replacementChar :: utf8DecodeAux fuel rest
      else replacementChar :: utf8DecodeAux fuel rest

/-- Decode UTF-8 bytes to characters, substituting the replacement
character for invalid sequences, as Buffer.prototype.toString with the
utf8 encoding does. -/
def utf8Decode (bytes : List Nat) : Str := utf8DecodeAux bytes.length bytes

/-- Character translation of decodeBase64Url: URL safe alphabet to the
standard one, src/parser.ts line 72. -/
def translateB64 (c : Char) : Char := if c = '-' then '+' else if c = '_' then '/' else c

/-- Deterministic padding of decodeBase64Url, src/parser.ts line 73. -/
def b64Pad (b64 : Str) : Str :=
  if b64.length % 4 = 0 then [] else List.replicate (4 - b64.length % 4) '='

/-- decodeBase64Url from src/parser.ts lines 71 to 75: translate the
URL safe alphabet, pad to a multiple of four, decode the base64 text to
bytes and the bytes as UTF-8 text; total on every input. -/
def decodeBase64Url (data : Str) : Str :=
  let b64 := data.map translateB64
  utf8Decode (sextetsToBytes ((b64 ++ b64Pad b64).filterMap b64Val))

/-! HTML entity decoding and HTML-to-text conversion, src/parser.ts
lines 78 to 145. -/

def isHexDigit (c : Char) : Bool :=
  ('0' ≤ c && c ≤ '9') || ('a' ≤ c && c ≤ 'f') || ('A' ≤ c && c ≤ 'F')

def hexVal (c : Char) : Nat :=
  if c ≤ '9' then c.toNat - 48 else if c ≤ 'F' then c.toNat - 55 else c.toNat - 87

def natOfHex (ds : Str) : Nat := ds.foldl (fun n c => n * 16 + hexVal c) 0

def natOfDec (ds : Str) : Nat := ds.foldl (fun n c => n * 10 + (c.toNat - 48)) 0

/-- String.fromCodePoint on one code point; code points beyond the
unicode maximum raise in JavaScript and unpaired surrogates survive
there, both are mapped to the replacement character here (neither case
is reachable in the properties proved below). -/
def fromCodePoint (n : Nat) : Str :=
  if n ≤ 1114111 && !(55296 ≤ n && n ≤ 57343) then [Char.ofNat n] else [replacementChar]

/-- Global replace of hexadecimal numeric entities with their decoded
code point, src/parser.ts line 80.  The greedy digit run must end right
before the semicolon, since a semicolon is not a hexadecimal digit. -/
def replaceHexEntities : Nat → Str → Str
  | 0, s => s
  | fuel+1, s =>
    match s with
    | [] => []
    | c :: rest =>
      let noHit := fun (_ : Unit) => c :: replaceHexEntities fuel rest
      if c = '&' then
        match rest with
        | '#' :: 'x' :: r2 =>
          let ds := r2.takeWhile isHexDigit
          if !ds.isEmpty && (r2.drop ds.length).head? = some ';' then
            fromCodePoint (natOfHex ds) ++ replaceHexEntities fuel (r2.drop (ds.length + 1))
          else noHit ()
        | _ => noHit ()
      else noHit ()

/-- Global replace of decimal numeric entities, src/parser.ts line 83. -/
def replaceDecEntities : Nat → Str → Str
  | 0, s => s
  | fuel+1, s =>
    match s with
    | [] => []
    | c :: rest =>
      let noHit := fun (_ : Unit) => c :: replaceDecEntities fuel rest
      if c = '&' then
        match rest with
        | '#' :: r2 =>
          let ds := r2.takeWhile (fun d => '0' ≤ d && d ≤ '9')
          if !ds.isEmpty && (r2.drop ds.length).head? = some ';' then
            fromCodePoint (natOfDec ds) ++ replaceDecEntities fuel (r2.drop (ds.length + 1))
          else noHit ()
        | _ => noHit ()
      else noHit ()

/-- decodeHtmlEntities from src/parser.ts lines 78 to 91, applying the
replacement chain in source order. -/
def decodeHtmlEntities (s : Str) : Str :=
  let s1 := replaceHexEntities (s.length + 1) s
  let s2 := replaceDecEntities (s1.length + 1) s1
  let s3 := (applyRegex true (rstr "&nbsp;") " ".toList s2).1
  let s4 := (applyRegex true (rstr "&amp;") "&".toList s3).1
  let s5 := (applyRegex true (rstr "&lt;") "<".toList s4).1
  let s6 := (applyRegex true (rstr "&gt;") ">".toList s5).1
  let s7 := (applyRegex true (rstr "&quot;") ['"'] s6).1
  let s8 := (applyRegex true (rstr "&apos;") [aposC] s7).1
  (applyRegex true (oneOf ["&zwnj;", "&zwj;", "&lrm;", "&rlm;"]) [] s8).1

/-- HTML comment regex of src/parser.ts line 96. -/
def commentRe : RE := rseq [rstr "<!--", lstar anyAll, rstr "-->"]

/-- One instance of the container-element regex of src/parser.ts lines
97 to 100 for a fixed tag.  The backreference of the source is resolved
by the opening literal, so the regex expands into the ordered
alternation of its five instantiations. -/
def blockTagRe (tag : String) : RE :=
  rseq [.lit '<', wsStar, rstr tag, star (ncc [.ch '>']), .lit '>',
        lstar anyAll, .lit '<', wsStar, .lit '/', wsStar, rstr tag, wsStar, .lit '>']

def blocksRe : RE := ralt (["script", "style", "noscript", "head", "svg"].map blockTagRe)

/-- Tag-stripping regex of src/parser.ts lines 112 and 131. -/
def stripTagRe : RE := rseq [.lit '<', plus1 (ncc [.ch '>']), .lit '>']

def isPrefixOfCI : Str → Str → Bool
  | [], _ => true
  | _ :: _, [] => false
  | p :: ps, c :: cs => charEqCI true p c && isPrefixOfCI ps cs

/-- Index of the first case-insensitive occurrence of pat. -/
def idxOfCI (pat : Str) : Str → Option Nat
  | [] => if pat.isEmpty then some 0 else none
  | c :: rest =>
    if isPrefixOfCI pat (c :: rest) then some 0 else (idxOfCI pat rest).map (· + 1)

/-- Captured group of a quoted href attribute match: the text between
the first quote of the match and its final quote. -/
def extractQuoted (q : Char) (m : Str) : Str := ((m.dropWhile (· ≠ q)).drop 1).dropLast

/-- The href lookup of the anchor rewrite, src/parser.ts lines 105 to
109: double-quoted, then single-quoted, then bare value. -/
def hrefOf (attrs : Str) : Str :=
  match findFirst true (rseq [.wb, rstr "href", wsStar, .lit '=', wsStar,
      .lit '"', plus1 (ncc [.ch '"']), .lit '"']) attrs with
  | some m => extractQuoted '"' m
  | none =>
    match findFirst true (rseq [.wb, rstr "href", wsStar, .lit '=', wsStar,
        .lit aposC, plus1 (ncc [.ch aposC]), .lit aposC]) attrs with
    | some m => extractQuoted aposC m
    | none =>
      match findFirst true (rseq [.wb, rstr "href", wsStar, .lit '=', wsStar,
          plus1 (ncc [.space, .ch '>'])]) attrs with
      | some m => ((m.dropWhile (fun c => c ≠ '=')).drop 1).dropWhile jsWhitespace
      | none => []

/-- Inner text of an anchor: strip tags to spaces, collapse whitespace,
trim, src/parser.ts lines 111 to 114. -/
def anchorInnerText (inner : Str) : Str :=
  jsTrim (applyRegex false (plus1 wsC) " ".toList
    ((applyRegex false stripTagRe " ".toList inner).1)).1

/-- String.prototype.includes. -/
def strIncludes (pat : Str) : Str → Bool
  | [] => pat.isEmpty
  | c :: rest => pat.isPrefixOf (c :: rest) || strIncludes pat rest

/-- Replacement text for one anchor element, src/parser.ts lines 116 to
119. -/
def anchorRepl (attrs inner : Str) : Str :=
  let href := hrefOf attrs
  let innerText := anchorInnerText inner
  if href.isEmpty then (if innerText.isEmpty then "link".toList else innerText)
  else if innerText.isEmpty then href
  else if strIncludes href innerText then innerText
  else innerText ++ " (".toList ++ href ++ [')']

/-- Global rewrite of anchor elements, src/parser.ts lines 103 to 120:
an opening anchor tag with lazily matched attributes up to the first
closing angle, a lazily matched body up to the first closing anchor
tag, rewritten through anchorRepl. -/
def rewriteAnchorsAux : Nat → Str → Str
  | 0, s => s
  | fuel+1, s =>
    match s with
    | [] => []
    | c :: rest =>
      let noHit := fun (_ : Unit) => c :: rewriteAnchorsAux fuel rest
      if isPrefixOfCI "<a".toList (c :: rest) then
        let after := (c :: rest).drop 2
        let boundaryOK := match after.head? with
                          | some d => !isWordChar d
                          | none => true
        if boundaryOK then
          let attrs := after.takeWhile (fun d => d ≠ '>')
          if attrs.length < after.length then
            let rest1 := after.drop (attrs.length + 1)
            match idxOfCI "</a>".toList rest1 with
            | some j =>
              anchorRepl attrs (rest1.take j) ++ rewriteAnchorsAux fuel (rest1.drop (j + 4))
            | none => noHit ()
          else noHit ()
        else noHit ()
      else noHit ()

def rewriteAnchors (s : Str) : Str := rewriteAnchorsAux (s.length + 1) s

/-- Line-break bullet and structure replacements of src/parser.ts lines
123 to 128; the list bullet of the source is the unicode bullet
followed by one space. -/
def structuralPass (s : Str) : Str :=
  let s1 := (applyRegex true (rseq [.lit '<', wsStar, rstr "br", wsStar,
              opt (.lit '/'), .lit '>']) "\n".toList s).1
  let s2 := (applyRegex true (rseq [.lit '<', wsStar, .lit '/', rstr "p", wsStar,
              .lit '>']) "\n\n".toList s1).1
  let s3 := (applyRegex true (rseq [.lit '<', wsStar, .lit '/', rstr "div", wsStar,
              .lit '>']) "\n".toList s2).1
  let s4 := (applyRegex true (rseq [.lit '<', wsStar, .lit '/', rstr "li", wsStar,
              .lit '>']) "\n".toList s3).1
  (applyRegex true (rseq [.lit '<', wsStar, rstr "li", wsStar, .lit '>'])
      [Char.ofNat 0x2022, ' '] s4).1

/-- Whitespace normalization of src/parser.ts lines 137 to 142:
collapse runs inside each line and trim it, then collapse three or more
consecutive line breaks to two, then trim the whole string. -/
def normalizeWhitespace (s : Str) : Str :=
  let lines := (s.splitOn '\n').map (fun line =>
    jsTrim (applyRegex false (plus1 wsC) " ".toList line).1)
  jsTrim (applyRegex false (reptMin (.lit '\n') 3) "\n\n".toList
    (joinWith ['\n'] lines)).1

/-- htmlToTextKeepingLinks from src/parser.ts lines 94 to 145. -/
def htmlToTextKeepingLinks (html : Str) : Str :=
  let s1 := (applyRegex false commentRe " ".toList html).1
  let s2 := (applyRegex true blocksRe " ".toList s1).1
  let s3 := rewriteAnchors s2
  let s4 := structuralPass s3
  let s5 := (applyRegex false stripTagRe " ".toList s4).1
  let s6 := decodeHtmlEntities s5
  normalizeWhitespace s6

/-! Body extraction, src/parser.ts lines 148 to 187. -/

/-- The body-extraction attachment test, src/parser.ts line 159: a
nonempty trimmed filename or an attachment id.  Note it is not the
test collectAttachmentTypes uses on line 52. -/
def isAttachmentForBody (p : MessagePart) : Bool :=
  !(partFilename p).isEmpty || (partAttachmentId p).isSome

mutual
/-- The walk of extractBodyText, src/parser.ts lines 155 to 172:
pre-order collection of the raw decoded plain and html segments. -/
def walkSeg : MessagePart → List Str × List Str → List Str × List Str
  | .mk m f b ps, acc =>
    let p := MessagePart.mk m f b ps
    let mimeType := toLowerStr (p.mimeType.getD [])
    let data := partData p
    let acc1 :=
      if !isAttachmentForBody p && !data.isEmpty then
        let text := decodeBase64Url data
        if mimeType = "text/plain".toList then (acc.1 ++ [text], acc.2)
        else if mimeType = "text/html".toList then (acc.1, acc.2 ++ [text])
        else acc
      else acc
    walkSegList ps acc1
def walkSegList : List MessagePart → List Str × List Str → List Str × List Str
  | [], acc => acc
  | p :: ps, acc => walkSegList ps (walkSeg p acc)
end

def collectSegments (payload : Option MessagePart) : List Str × List Str :=
  match payload with
  | none => ([], [])
  | some p => walkSeg p ([], [])

/-- Body selection of extractBodyText, src/parser.ts lines 176 to 180:
the trimmed newline join of the plain segments when that is nonempty,
else the html conversion of the trimmed newline join of the html
segments, else empty. -/
def selectedBody (payload : Option MessagePart) : Str :=
  let segs := collectSegments payload
  let out0 := jsTrim (joinWith ['\n'] segs.1)
  if out0.isEmpty then
    let html := jsTrim (joinWith ['\n'] segs.2)
    if html.isEmpty then [] else htmlToTextKeepingLinks html
  else out0

/-- extractBodyText from src/parser.ts lines 148 to 187: the selected
body, truncated on lines 182 to 184.  The source compares maxChars with
zero before truncating, so zero means unlimited and the bound is
modelled as a natural number. -/
def extractBodyText (payload : Option MessagePart) (maxChars : Nat) : Str :=
  let out := selectedBody payload
  if maxChars > 0 && decide (out.length > maxChars) then out.take maxChars else out

/-! Embedding of src/sanitizer.ts and src/address-detector.ts. -/

/-- The redaction categories, in the declaration order of the source
union type and of the REDACTION_CATEGORIES record. -/
inductive RedactionCategory where
  | credit_cards | bank_accounts | tax_ids | passwords | api_keys
  | otp_codes | phone_numbers | physical_addresses | ip_addresses
  | government_ids | token_urls | case_numbers | claim_numbers
  | auth_codes | device_ids | employee_ids
  | dates_of_birth | ages | member_ids | vehicle_ids | medical_ids
  | email_addresses | order_numbers | tracking_numbers
  | booking_references | financial_amounts | regular_urls
  deriving DecidableEq, BEq, Repr

open RedactionCategory in
/-- Object.keys of REDACTION_CATEGORIES, in record insertion order. -/
def ALL_REDACTION_CATEGORIES : List RedactionCategory :=
  [credit_cards, bank_accounts, tax_ids, passwords, api_keys,
   otp_codes, phone_numbers, physical_addresses, ip_addresses,
   government_ids, token_urls, case_numbers, claim_numbers,
   auth_codes, device_ids, employee_ids,
   dates_of_birth, ages, member_ids, vehicle_ids, medical_ids,
   email_addresses, order_numbers, tracking_numbers,
   booking_references, financial_amounts, regular_urls]

/-- The default flag of each entry of REDACTION_CATEGORIES: the six
convenience categories are off, everything else is on. -/
def categoryDefault : RedactionCategory → Bool
  | .email_addresses | .order_numbers | .tracking_numbers
  | .booking_references | .financial_amounts | .regular_urls => false
  | _ => true

def DEFAULT_REDACTION_CATEGORIES : List RedactionCategory :=
  ALL_REDACTION_CATEGORIES.filter categoryDefault

/-! The address detector, src/address-detector.ts. -/

def US_STATES : List String :=
  ["AL", "AK", "AZ", "AR", "CA", "CO", "CT", "DE", "FL", "GA",
   "HI", "ID", "IL", "IN", "IA", "KS", "KY", "LA", "ME", "MD",
   "MA", "MI", "MN", "MS", "MO", "MT", "NE", "NV", "NH", "NJ",
   "NM", "NY", "NC", "ND", "OH", "OK", "OR", "PA", "RI", "SC",
   "SD", "TN", "TX", "UT", "VT", "VA", "WA", "WV", "WI", "WY", "DC",
   "Alabama", "Alaska", "Arizona", "Arkansas", "California", "Colorado",
   "Connecticut", "Delaware", "Florida", "Georgia", "Hawaii", "Idaho",
   "Illinois", "Indiana", "Iowa", "Kansas", "Kentucky", "Louisiana",
   "Maine", "Maryland", "Massachusetts", "Michigan", "Minnesota",
   "Mississippi", "Missouri", "Montana", "Nebraska", "Nevada",
   "New Hampshire", "New Jersey", "New Mexico", "New York",
   "North Carolina", "North Dakota", "Ohio", "Oklahoma", "Oregon",
   "Pennsylvania", "Rhode Island", "South Carolina", "South Dakota",
   "Tennessee", "Texas", "Utah", "Vermont", "Virginia", "Washington",
   "West Virginia", "Wisconsin", "Wyoming"]

def STREET_TYPES : List String :=
  ["Street", "St", "Avenue", "Ave", "Road", "Rd", "Drive", "Dr",
   "Lane", "Ln", "Way", "Court", "Ct", "Circle", "Cir", "Boulevard",
   "Blvd", "Place", "Pl", "Terrace", "Ter", "Parkway", "Pkwy",
   "Highway", "Hwy", "Freeway", "Fwy", "Expressway", "Expy",
   "Trail", "Trl", "Path", "Pass", "Pike", "Plaza", "Plz",
   "Alley", "Aly", "Center", "Ctr", "Commons", "Crossing", "Xing",
   "Estate", "Est", "Glen", "Green", "Grove", "Heights", "Hts",
   "Hill", "Hollow", "Junction", "Jct", "Knoll", "Lake", "Landing",
   "Loop", "Mall", "Manor", "Meadow", "Mill", "Park", "Passage",
   "Point", "Pt", "Ridge", "Row", "Run", "Square", "Sq", "Station",
   "Summit", "Trace", "Track", "Turnpike", "Tpke", "Valley", "View",
   "Village", "Vista", "Walk", "Way"]

def INTERNATIONAL_STREET_TYPES : List String :=
  ["Corte", "Calle", "Via", "Camino", "Avenida", "Paseo", "Plaza",
   "Cerrada", "Circulo", "Entrada", "Vereda", "Sendero", "Callejon",
   "Rue", "Strasse", "Straße", "Gasse", "Weg", "Platz"]

def UNIT_TYPES : List String :=
  ["Apt", "Apartment", "Suite", "Ste", "Unit", "Bldg", "Building",
   "Floor", "Fl", "Room", "Rm", "Dept", "Department", "Lot",
   "Space", "Spc", "Slip", "Pier", "Hangar", "Trlr", "Trailer"]

def DIRECTIONS : List String :=
  ["N", "S", "E", "W", "NE", "NW", "SE", "SW",
   "North", "South", "East", "West",
   "Northeast", "Northwest", "Southeast", "Southwest"]

/-- Stable insertion of one element into a list sorted by string length
descending, placing it after every element of equal or larger length. -/
def insLenDesc (x : String) : List String → List String
  | [] => [x]
  | y :: ys => if x.length ≤ y.length then y :: insLenDesc x ys else x :: y :: ys

/-- Stable sort by string length descending, as the source comparator
does so that longer names match first. -/
def sortLenDesc (l : List String) : List String :=
  l.foldl (fun acc x => insLenDesc x acc) []

/-- buildStreetTypePattern: all street types joined into one ordered
alternation; the dot escaping of the source never fires since no entry
holds a dot. -/
def streetTypesRe : RE := oneOf (STREET_TYPES ++ INTERNATIONAL_STREET_TYPES)

def unitTypesRe : RE := oneOf UNIT_TYPES

/-- buildStatePattern: states sorted longest first, joined into one
ordered alternation. -/
def statesRe : RE := oneOf (sortLenDesc US_STATES)

def directionsRe : RE := oneOf DIRECTIONS

/-- Alternation of words where a tail fragment attaches only to the
last alternative.  The second address pattern splices the direction
alternation into the template without an inner group, so its trailing
optional dot and mandatory whitespace bind only to the final
alternative of the joined list. -/
def oneOfLastSeq (ws : List String) (tail : RE) : RE :=
  match ws with
  | [] => .seq (cc []) tail
  | [w] => .seq (rstr w) tail
  | w :: rest => .alt (rstr w) (oneOfLastSeq rest tail)

def rexact (r : RE) (n : Nat) : RE := .rep r n (some n)

def alphaC : RE := cc [upperI, lowerI]
def alnumC : RE := cc [upperI, lowerI, dig]
def commaDotC : RE := cc [.ch ',', .ch '.']

/-- The street-word alternation of the contextual street patterns. -/
def stRoadAlt : RE := oneOf ["Street", "St", "Avenue", "Ave", "Road", "Rd", "Drive", "Dr"]

/-- The deliberately broad bare five or nine digit ZIP pattern, entry
seven of getAddressPatterns. -/
def bareZipRe : RE :=
  rseq [.wb, rexact digitC 5, opt (rseq [.lit '-', rexact digitC 4]), .wb]

/-- getAddressPatterns from src/address-detector.ts lines 833 to 915,
in source order; the first component of each pair is the
case-insensitivity flag of the regex. -/
def ADDRESS_PATTERNS : List (Bool × RE) :=
  [ -- full street address with optional direction and unit
    (true, rseq [.wb, .rep digitC 1 (some 6), wsPlus,
      opt (rseq [directionsRe, opt (.lit '.'), wsPlus]),
      .rep (cc [upperI, lowerI, dig, .space]) 1 (some 30),
      streetTypesRe, opt (.lit '.'),
      opt (rseq [wsStar, opt commaDotC, wsStar, unitTypesRe, opt (.lit '.'),
                 wsStar, opt (.lit '#'), wsStar,
                 plus1 (cc [upperI, lowerI, dig, .ch '-'])]),
      .wb]),
    -- street address with international types; the direction fragment
    -- is spliced without an inner group, see oneOfLastSeq
    (true, rseq [.wb, .rep digitC 1 (some 6), wsPlus,
      opt (oneOfLastSeq DIRECTIONS (rseq [opt (.lit '.'), wsPlus])),
      plus1 alphaC, opt (rseq [wsPlus, plus1 alphaC]), wsPlus,
      streetTypesRe, .wb]),
    -- standalone unit or apartment
    (true, rseq [.wb, unitTypesRe, opt (.lit '.'), wsStar, opt (.lit '#'), wsStar,
      .rep (cc [dig, upperI]) 1 (some 6), .wb]),
    -- hash followed by a number
    (true, rseq [.wb, .lit '#', wsStar, .rep digitC 1 (some 5), opt (cc [upperI]), .wb]),
    -- PO Box variations
    (true, rseq [.wb,
      ralt [rseq [.lit 'P', opt (.lit '.'), wsStar, .lit 'O', opt (.lit '.'), wsStar,
                  rstr "Box"],
            rseq [rstr "Post", wsStar, rstr "Office", wsStar, rstr "Box"],
            rstr "POB"],
      wsStar, opt (.lit '#'), wsStar, plus1 digitC, .wb]),
    -- City, State ZIP
    (true, rseq [.wb, cc [upperI], plus1 (cc [lowerI]),
      star (rseq [wsPlus, cc [upperI], plus1 (cc [lowerI])]),
      opt commaDotC, wsStar, statesRe, wsStar,
      rexact digitC 5, opt (rseq [.lit '-', rexact digitC 4]), .wb]),
    -- State ZIP only (case sensitive)
    (false, rseq [.wb, statesRe, wsPlus,
      rexact digitC 5, opt (rseq [.lit '-', rexact digitC 4]), .wb]),
    -- bare US ZIP code, five or nine digits
    (false, bareZipRe),
    -- UK postcode
    (true, rseq [.wb, .rep (cc [upperI]) 1 (some 2), digitC, opt (cc [upperI, dig]),
      wsStar, digitC, rexact (cc [upperI]) 2, .wb]),
    -- Canada postal code
    (true, rseq [.wb, cc [upperI], digitC, cc [upperI], wsStar,
      digitC, cc [upperI], digitC, .wb]),
    -- Australian postcode with state
    (true, rseq [.wb, oneOf ["NSW", "VIC", "QLD", "SA", "WA", "TAS", "NT", "ACT"],
      wsStar, rexact digitC 4, .wb]),
    -- address with contextual keywords
    (true, rseq [.wb,
      ralt [rstr "address", .seq (rstr "ship") (opt (rstr "ping")),
            .seq (rstr "deliver") (opt (rstr "y")),
            .seq (rstr "mail") (opt (rstr "ing")),
            rseq [rstr "locate", opt (.lit 'd'), wsStar, rstr "at"],
            rstr "residence", rstr "home"],
      wsStar, opt (oneOf ["to", "at", "is"]), opt (.lit ':'), wsStar,
      .rep digitC 1 (some 6), wsPlus,
      .rep (cc [upperI, lowerI, dig, .space, .ch ',', .ch '.']) 10 (some 100)]),
    -- at followed by a street address
    (true, rseq [.wb, rstr "at", wsPlus, .rep digitC 1 (some 6), wsPlus,
      plus1 alphaC, .rep (rseq [wsPlus, plus1 alphaC]) 0 (some 3), wsPlus,
      oneOf ["Street", "St", "Avenue", "Ave", "Road", "Rd", "Drive", "Dr",
             "Lane", "Ln", "Way", "Court", "Ct", "Boulevard", "Blvd"],
      .wb]),
    -- intersection
    (true, rseq [.wb, plus1 alnumC, wsPlus, stRoadAlt, wsStar,
      ralt [rstr "&", rstr "and"], wsStar, plus1 alnumC, wsPlus, stRoadAlt, .wb]),
    -- floor and level markers
    (true, rseq [.wb, oneOf ["Floor", "Level", "Fl"], wsStar, opt (.lit '#'), wsStar,
      .rep digitC 1 (some 3), .wb]),
    (true, rseq [.wb, .rep digitC 1 (some 2), oneOf ["st", "nd", "rd", "th"], wsPlus,
      oneOf ["Floor", "Level"], .wb]),
    -- building markers
    (true, rseq [.wb, oneOf ["Building", "Bldg"], wsStar, opt (.lit '#'), wsStar,
      .rep (cc [upperI, dig]) 1 (some 5), .wb]),
    -- care of
    (true, rseq [.wb, rstr "C/O", wsPlus, plus1 (cc [upperI, lowerI, .space])]),
    -- attention
    (true, rseq [.wb, rstr "Attn", opt (.lit ':'), wsPlus,
      plus1 (cc [upperI, lowerI, .space])]),
    -- German street formats
    (true, rseq [.wb,
      plus1 (cc [upperI, lowerI, .ch 'ä', .ch 'ö', .ch 'ü', .ch 'Ä', .ch 'Ö',
                 .ch 'Ü', .ch 'ß']),
      oneOf ["straße", "strasse", "gasse", "weg", "platz", "allee"],
      wsStar, plus1 digitC, opt alphaC, .wb]),
    -- French street formats
    (true, rseq [.wb, plus1 digitC, wsPlus,
      oneOf ["Rue", "Avenue", "Boulevard", "Place", "Chemin", "Allée"],
      wsPlus, plus1 (cc [upperI, lowerI, .space])]) ]

def MAJOR_CITIES : List String :=
  ["New York", "Los Angeles", "Chicago", "Houston", "Phoenix",
   "Philadelphia", "San Antonio", "San Diego", "Dallas", "San Jose",
   "Austin", "Jacksonville", "Fort Worth", "Columbus", "Charlotte",
   "San Francisco", "Indianapolis", "Seattle", "Denver", "Boston",
   "El Paso", "Nashville", "Detroit", "Portland", "Memphis",
   "Oklahoma City", "Las Vegas", "Louisville", "Baltimore", "Milwaukee",
   "Albuquerque", "Tucson", "Fresno", "Sacramento", "Kansas City",
   "Mesa", "Atlanta", "Omaha", "Colorado Springs", "Raleigh",
   "Long Beach", "Virginia Beach", "Miami", "Oakland", "Minneapolis",
   "Tulsa", "Bakersfield", "Wichita", "Arlington", "Aurora",
   "Tampa", "New Orleans", "Cleveland", "Honolulu", "Anaheim",
   "Lexington", "Stockton", "Corpus Christi", "Henderson", "Riverside",
   "Newark", "Saint Paul", "Santa Ana", "Cincinnati", "Irvine",
   "Orlando", "Pittsburgh", "St. Louis", "Greensboro", "Jersey City",
   "Anchorage", "Lincoln", "Plano", "Durham", "Buffalo",
   "Chandler", "Chula Vista", "Toledo", "Madison", "Gilbert",
   "Reno", "Fort Wayne", "North Las Vegas", "St. Petersburg", "Lubbock",
   "Irving", "Laredo", "Winston-Salem", "Chesapeake", "Glendale",
   "Garland", "Scottsdale", "Norfolk", "Boise", "Fremont",
   "Spokane", "Santa Clarita", "Baton Rouge", "Richmond", "Hialeah",
   "Carlsbad", "Oceanside", "Escondido", "Vista", "Encinitas",
   "San Marcos", "Poway", "La Jolla", "Del Mar", "Solana Beach",
   "Rancho Santa Fe", "Coronado", "Chula Vista", "National City",
   "Imperial Beach", "La Mesa", "El Cajon", "Santee", "Lakeside"]

/-- The per-city regex of getCityPatterns: the escaped city name, an
optional comma or dot, an optional two-letter state, and a mandatory
five or nine digit ZIP, case-insensitive. -/
def cityPattern (city : String) : Bool × RE :=
  (true, rseq [.wb, rstr city, wsStar, opt commaDotC, wsStar,
    opt (rseq [rexact (cc [upperI]) 2, wsStar]),
    rexact digitC 5, opt (rseq [.lit '-', rexact digitC 4]), .wb])

/-- getCityPatterns from src/address-detector.ts lines 947 to 956:
cities sorted longest first, each mapped through the city template. -/
def CITY_PATTERNS : List (Bool × RE) := (sortLenDesc MAJOR_CITIES).map cityPattern

/-! The PATTERNS registry of src/sanitizer.ts lines 201 to 685.  The
name and description metadata strings of the source carry no behavior
and are not modelled; category, ordered pattern list and replacement
are.  The first component of each pattern pair is the regex
case-insensitivity flag. -/

structure RedactionPattern where
  category : RedactionCategory
  patterns : List (Bool × RE)
  replacement : Str

/-- Fragment for the context suffix variant that also allows the word
id, written in the source as hash or number or no-dot or id. -/
def numCtxId : RE :=
  rseq [wsStar, opt (ralt [rstr "#", rstr "number", .seq (rstr "no") (opt (.lit '.')),
                           rstr "id"]),
        opt (.lit ':'), wsStar]

/-- Fragment for the context suffix where id comes first, used by the
student id pattern. -/
def idCtxFirst : RE :=
  rseq [wsStar, opt (ralt [rstr "id", rstr "#", rstr "number",
                           .seq (rstr "no") (opt (.lit '.'))]),
        opt (.lit ':'), wsStar]

def sepHy : RE := cc [.space, .ch '-']
def sepHyO : RE := opt sepHy
def sepDot : RE := cc [.space, .ch '-', .ch '.']
def d4 : RE := rexact digitC 4
def quoteO : RE := opt (cc [.ch '"', .ch aposC])
def azAZ09hy : RE := cc [upperI, dig, .ch '-']
def hexC : RE := cc [dig, .range 'a' 'f', .range 'A' 'F']
def httpRe : RE := rseq [rstr "http", opt (.lit 's'), rstr "://"]
def nspC : RE := ncc [.space]
def nqC : RE := ncc [.space, .ch '<', .ch '>', .ch '"', .ch aposC]
def tokV10 : RE := reptMin (ncc [.space, .ch '&', .ch '"', .ch aposC]) 10
def tokV20 : RE := reptMin (ncc [.space, .ch '&', .ch '"', .ch aposC]) 20
def urlIdC : RE := cc [upperI, lowerI, dig, .ch '_', .ch '-', .ch '.', .ch '%']
def vinC : RE := cc [.range 'A' 'H', .range 'J' 'N', .ch 'P', .range 'R' 'Z', dig]
def ipOctet : RE :=
  ralt [rseq [rstr "25", cc [.range '0' '5']],
        rseq [.lit '2', cc [.range '0' '4'], digitC],
        rseq [opt (cc [.ch '0', .ch '1']), digitC, opt digitC]]
def hex14 : RE := .rep hexC 1 (some 4)
def trkCtx : RE := rseq [wsStar, opt (ralt [rstr "#", rstr "tracking"]), opt (.lit ':'), wsStar]

def PATTERNS : List RedactionPattern :=
  [ { category := .credit_cards,
      patterns :=
        [ (false, rseq [.wb, .lit '4', rexact digitC 3, sepHyO, d4, sepHyO, d4, sepHyO, d4, .wb]),
          (false, rseq [.wb,
            ralt [rseq [.lit '5', cc [.range '1' '5'], rexact digitC 2],
                  rseq [.lit '2', cc [.range '2' '7'], rexact digitC 2]],
            sepHyO, d4, sepHyO, d4, sepHyO, d4, .wb]),
          (false, rseq [.wb, .lit '3', cc [.ch '4', .ch '7'], rexact digitC 2,
            sepHyO, rexact digitC 6, sepHyO, rexact digitC 5, .wb]),
          (false, rseq [.wb, .lit '6',
            ralt [rstr "011", rseq [.lit '5', rexact digitC 2],
                  rseq [.lit '4', cc [.range '4' '9'], digitC]],
            sepHyO, d4, sepHyO, d4, sepHyO, d4, .wb]),
          (false, rseq [.wb, d4, sepHy, d4, sepHy, d4, sepHy, d4, .wb]),
          (true, rseq [.wb,
            ralt [rstr "card", rstr "ending", rstr "ends",
                  rseq [rstr "last", wsStar, .lit '4']],
            rseq [wsPlus, opt (ralt [rstr "in", .seq (rstr "digit") (opt (.lit 's')),
                                     rstr "number"]),
                  opt (.lit ':'), wsStar],
            d4, .wb]),
          (false, rseq [reptMin (.lit '.') 2, d4, .wb]),
          (false, rseq [reptMin (.lit '*') 2, d4, .wb]),
          (false, rseq [reptMin (cc [.ch 'x', .ch 'X']) 2, d4, .wb]),
          (false, rseq [.lit '(', rstr "...", d4, .lit ')']),
          (true, rseq [reptMin (cc [.ch '*', .ch 'x', .ch 'X']) 4, d4, .wb]),
          (true, rseq [.wb, oneOf ["your", "my", "the"], wsPlus,
            opt (rseq [plus1 (cc [.word]), wsPlus]), rstr "card", wsPlus,
            .rep digitC 8 (some 20), .wb]),
          (true, rseq [.wb, rstr "card", numCtx, .rep digitC 8 (some 20), .wb]),
          (true, rseq [.wb, rstr "control", numCtx, .rep digitC 8 (some 20), .wb]),
          (true, rseq [.wb, opt (rseq [plus1 (cc [.word]), wsPlus]), rstr "agreement",
            numCtx, .rep digitC 8 (some 20), .wb]),
          (true, rseq [.wb, rstr "number", opt (.lit ':'), wsStar,
            .rep digitC 8 (some 20), .wb]) ],
      replacement := "[REDACTED_CARD]".toList },
    { category := .bank_accounts,
      patterns :=
        [ (true, rseq [.wb, oneOf ["routing", "aba", "transit"], numCtx,
            rexact digitC 9, .wb]),
          (true, rseq [.wb, oneOf ["account", "acct"], numCtx,
            .rep digitC 6 (some 17), .wb]),
          (false, rseq [.wb, rexact (cc [upperI]) 2, rexact digitC 2, opt wsC,
            rexact (cc [upperI, dig]) 4, opt wsC, rexact digitC 4, opt wsC,
            rexact digitC 4, opt wsC, rexact digitC 4, opt wsC,
            .rep digitC 0 (some 4), .wb]),
          (false, rseq [.wb, rexact (cc [upperI]) 4, rexact (cc [upperI]) 2,
            rexact (cc [upperI, dig]) 2, opt (rexact (cc [upperI, dig]) 3), .wb]) ],
      replacement := "[REDACTED_BANK]".toList },
    { category := .tax_ids,
      patterns :=
        [ (false, rseq [.wb, rexact digitC 3, sepHy, rexact digitC 2, sepHy,
            rexact digitC 4, .wb]),
          (false, rseq [.wb, rexact digitC 2, sepHy, rexact digitC 7, .wb]),
          (true, rseq [.wb,
            ralt [rstr "ssn", rseq [rstr "social", wsStar, rstr "security"],
                  rstr "tin", rseq [rstr "tax", wsStar, rstr "id"],
                  rstr "ein", rstr "itin"],
            numCtx, .rep (cc [dig, .ch '-', .space]) 9 (some 11), .wb]),
          (false, rseq [.wb, rexact digitC 3, sepHy, rexact digitC 3, sepHy,
            rexact digitC 3, .wb]),
          (false, rseq [.wb, rexact (cc [upperI]) 2, rexact digitC 6, cc [upperI], .wb]),
          (true, rseq [.wb, ralt [rstr "tfn", rseq [rstr "tax", wsStar, rstr "file"]],
            numCtx, rexact digitC 3, opt wsC, rexact digitC 3, opt wsC,
            rexact digitC 3, .wb]) ],
      replacement := "[REDACTED_TAX_ID]".toList },
    { category := .passwords,
      patterns :=
        [ (true, rseq [.wb,
            oneOf ["password", "passwd", "pwd", "pin", "passcode", "secret"],
            rseq [wsStar, oneOf ["is", "was", ":"], wsStar],
            quoteO, .rep (ncc [.space, .ch '"', .ch aposC]) 4 (some 50), quoteO]),
          (true, rseq [.wb, oneOf ["temporary", "temp", "new", "initial", "default"],
            wsPlus, oneOf ["password", "pwd", "pin"],
            rseq [wsStar, oneOf ["is", "was", ":"], wsStar],
            quoteO, .rep (ncc [.space, .ch '"', .ch aposC]) 4 (some 50), quoteO]),
          (true, rseq [oneOf ["your", "the"], wsPlus,
            oneOf ["password", "pin", "passcode"], wsPlus,
            oneOf ["is", "was", ":"], wsStar,
            quoteO, .rep (ncc [.space, .ch '"', .ch aposC, .ch '\n']) 4 (some 50),
            quoteO]) ],
      replacement := "[REDACTED_PASSWORD]".toList },
    { category := .api_keys,
      patterns :=
        [ (false, rseq [.wb, oneOf ["AKIA", "ABIA", "ACCA", "ASIA"],
            rexact (cc [upperI, dig]) 16, .wb]),
          (true, rseq [.wb,
            ralt [rseq [rstr "aws", opt (cc [.ch '_', .ch '-']), rstr "secret"],
                  rseq [rstr "secret", opt (cc [.ch '_', .ch '-']), rstr "key"]],
            quoteO, wsStar, cc [.ch ':', .ch '='], wsStar, quoteO,
            rexact (cc [upperI, lowerI, dig, .ch '/', .ch '+', .ch '=']) 40, quoteO]),
          (false, rseq [.wb, rstr "AIza",
            rexact (cc [upperI, lowerI, dig, .ch '_', .ch '-']) 35, .wb]),
          (false, rseq [.wb, oneOf ["sk", "pk", "rk"], .lit '_',
            oneOf ["live", "test"], .lit '_',
            reptMin (cc [upperI, lowerI, dig]) 24, .wb]),
          (false, rseq [.wb, oneOf ["ghp", "gho", "ghu", "ghs", "ghr"], .lit '_',
            reptMin (cc [upperI, lowerI, dig]) 36, .wb]),
          (false, rseq [.wb, rstr "xox",
            cc [.ch 'b', .ch 'a', .ch 'p', .ch 'r', .ch 's'], .lit '-',
            reptMin (cc [upperI, lowerI, dig, .ch '-']) 10, .wb]),
          (true, rseq [.wb,
            ralt [rseq [rstr "api", opt (cc [.ch '_', .ch '-']), rstr "key"],
                  rstr "apikey",
                  rseq [rstr "access", opt (cc [.ch '_', .ch '-']), rstr "token"],
                  rseq [rstr "auth", opt (cc [.ch '_', .ch '-']), rstr "token"],
                  rstr "bearer"],
            quoteO, wsStar, cc [.ch ':', .ch '='], wsStar, quoteO,
            reptMin (cc [upperI, lowerI, dig, .ch '_', .ch '-']) 20, quoteO]),
          (false, rseq [.wb, rstr "Bearer", wsPlus,
            plus1 (cc [upperI, lowerI, dig, .ch '_', .ch '-', .ch '.'])]),
          (false, rseq [.wb, rstr "eyJ", star (cc [upperI, lowerI, dig, .ch '_', .ch '-']),
            .lit '.', rstr "eyJ", star (cc [upperI, lowerI, dig, .ch '_', .ch '-']),
            .lit '.', star (cc [upperI, lowerI, dig, .ch '_', .ch '-'])]) ],
      replacement := "[REDACTED_API_KEY]".toList },
    { category := .otp_codes,
      patterns :=
        [ (true, rseq [.wb,
            oneOf ["verification", "confirmation", "security", "authentication", "otp"],
            wsPlus, rstr "code", wsStar, opt (oneOf ["is", "was"]), opt (.lit ':'),
            wsStar, .rep digitC 4 (some 8), .wb]),
          (true, rseq [.wb, rstr "one", opt sepHy, rstr "time", wsPlus,
            oneOf ["code", "password", "passcode"],
            star (ncc [dig]), .rep digitC 4 (some 8), .wb]),
          (true, rseq [.wb, rstr "code", wsPlus, opt (rseq [rstr "is", wsPlus]),
            opt (rseq [rstr "only", wsPlus]), rstr "valid",
            star (ncc [dig]), .rep digitC 4 (some 8), .wb]),
          (true, rseq [.wb, oneOf ["your", "the"], wsPlus,
            oneOf ["code", "pin", "otp", "passcode"], wsStar,
            opt (oneOf ["is", "was"]), opt (.lit ':'), wsStar,
            .rep digitC 4 (some 8), .wb]),
          (true, rseq [.wb, rstr "code", wsStar, opt (oneOf ["is", "was"]),
            opt (.lit ':'), wsStar, .rep digitC 4 (some 8), .wb]),
          (true, rseq [.wb, oneOf ["pin", "otp"], wsStar, opt (.lit ':'), wsStar,
            .rep digitC 4 (some 8), .wb]),
          (true, rseq [.wb,
            ralt [rstr "2fa", rseq [rstr "two", opt sepHy, rstr "factor"], rstr "mfa"],
            wsStar, opt (rstr "code"), wsStar, opt (oneOf ["is", "was"]),
            opt (.lit ':'), wsStar, .rep digitC 4 (some 8), .wb]),
          (true, rseq [.wb, rstr "enter", wsPlus, opt (rseq [rstr "code", wsPlus]),
            .rep digitC 4 (some 8), .wb]),
          (true, rseq [.wb, rstr "is", wsStar, .lit ':', wsStar, rexact digitC 6, .wb]),
          (true, rseq [.wb, rstr "valid", wsPlus, opt (rseq [rstr "for", wsPlus]),
            plus1 digitC, wsStar,
            ralt [.seq (rstr "minute") (opt (.lit 's')),
                  .seq (rstr "min") (opt (.lit 's')),
                  .seq (rstr "hour") (opt (.lit 's')),
                  .seq (rstr "hr") (opt (.lit 's'))],
            star (ncc [dig]), .rep digitC 4 (some 8), .wb]) ],
      replacement := "[REDACTED_CODE]".toList },
    { category := .phone_numbers,
      patterns :=
        [ (false, rseq [rstr "+1", rexact digitC 10, .wb]),
          (false, rseq [.wb, opt (rseq [opt (.lit '+'), .lit '1', opt sepDot]),
            opt (.lit '('), rexact digitC 3, opt (.lit ')'), sepDot,
            rexact digitC 3, sepDot, rexact digitC 4, .wb]),
          (false, rseq [.wb, cc [.range '2' '9'], rexact digitC 2,
            cc [.range '2' '9'], rexact digitC 6, .wb]),
          (false, rseq [.lit '+', .rep digitC 1 (some 3), sepDot,
            .rep digitC 1 (some 4), sepDot, .rep digitC 1 (some 4), sepDot,
            .rep digitC 1 (some 4), opt sepDot, .rep digitC 0 (some 4), .wb]),
          (false, rseq [.lit '+', .rep digitC 11 (some 15), .wb]),
          (false, rseq [.wb, ralt [rstr "+44", rstr "0"], opt sepDot,
            rexact digitC 4, opt sepDot, rexact digitC 6, .wb]),
          (true, rseq [.wb, oneOf ["phone", "tel", "mobile", "cell", "fax", "call"],
            numCtx, opt (.lit '+'),
            .rep (cc [dig, .space, .ch '-', .ch '.', .ch '(', .ch ')']) 7 (some 20),
            .wb]) ],
      replacement := "[REDACTED_PHONE]".toList },
    { category := .physical_addresses,
      patterns := ADDRESS_PATTERNS ++ CITY_PATTERNS,
      replacement := "[REDACTED_ADDRESS]".toList },
    { category := .ip_addresses,
      patterns :=
        [ (false, rseq [.wb, rexact (rseq [ipOctet, .lit '.']) 3, ipOctet, .wb]),
          (false, rseq [.wb, rexact (rseq [hex14, .lit ':']) 7, hex14, .wb]),
          (false, rseq [.wb, .rep (rseq [hex14, .lit ':']) 1 (some 7), .lit ':', .wb]),
          (false, rseq [.wb, rstr "::", .rep (rseq [hex14, .lit ':']) 0 (some 6),
            hex14, .wb]) ],
      replacement := "[REDACTED_IP]".toList },
    { category := .government_ids,
      patterns :=
        [ (true, rseq [.wb, rstr "passport", numCtx,
            .rep (cc [upperI, dig]) 6 (some 12), .wb]),
          (true, rseq [.wb,
            ralt [rseq [rstr "driver", opt (.lit aposC), opt (.lit 's'), wsStar,
                        rstr "licen", cc [.ch 's', .ch 'c'], .lit 'e'],
                  rstr "dl", rstr "license"],
            numCtx, .rep azAZ09hy 5 (some 20), .wb]),
          (true, rseq [.wb,
            ralt [rseq [rstr "national", wsStar, rstr "id"],
                  rseq [rstr "id", wsStar, rstr "card"],
                  rseq [rstr "identity", wsStar, rstr "card"]],
            numCtx, .rep azAZ09hy 5 (some 20), .wb]),
          (true, rseq [.wb, rstr "medicare", numCtx, .rep digitC 10 (some 11), .wb]),
          (true, rseq [.wb, rstr "nhs", numCtx, rexact digitC 3, opt sepHy,
            rexact digitC 3, opt sepHy, rexact digitC 4, .wb]) ],
      replacement := "[REDACTED_GOV_ID]".toList },
    { category := .token_urls,
      patterns :=
        [ (true, rseq [httpRe, star nspC, oneOf ["reset", "password", "recover", "forgot"],
            star nspC, cc [.ch '?', .ch '&'], star nspC,
            oneOf ["token", "key", "code", "hash", "id"], .lit '=', tokV10, star nspC]),
          (true, rseq [httpRe, star nspC,
            oneOf ["verify", "confirm", "activate", "validate"],
            star nspC, cc [.ch '?', .ch '&'], star nspC,
            oneOf ["token", "key", "code", "hash", "id"], .lit '=', tokV10, star nspC]),
          (true, rseq [httpRe, star nspC,
            oneOf ["unsubscribe", "optout", "opt-out", "preferences"],
            star nspC, cc [.ch '?', .ch '&'], star nspC, .lit '=', tokV20, star nspC]),
          (true, rseq [httpRe, star nspC, oneOf ["magic", "login", "signin", "auth"],
            star nspC, cc [.ch '?', .ch '&'], star nspC,
            oneOf ["token", "key", "code"], .lit '=', tokV10, star nspC]),
          (true, rseq [httpRe, star nspC, cc [.ch '?', .ch '&'],
            oneOf ["track", "click", "open", "view", "pixel"],
            star nspC, .lit '=', tokV20, star nspC]),
          (true, rseq [httpRe, star nqC, cc [.ch '?', .ch '&'],
            star (cc [lowerI, .ch '_']),
            oneOf ["token", "key", "hash", "signature", "sig", "auth", "session"],
            .lit '=', reptMin urlIdC 30, star nqC]),
          (true, rseq [httpRe, star nqC, cc [.ch '?', .ch '&', .ch ';'],
            oneOf ["payeeId", "bu", "uid", "userId", "user_id", "trkId", "euid",
                   "cnvId", "mesgId", "osub", "segname", "plmtId", "ndid", "_ei_",
                   "username", "pcid"],
            .lit '=', plus1 urlIdC, star nqC]),
          (true, rseq [httpRe, star nqC, cc [.ch '?', .ch '&'],
            star (cc [lowerI, .ch '_']), cc [.ch 'i', .ch 'I'], .lit 'd', .lit '=',
            reptMin digitC 8, star nqC]) ],
      replacement := "[REDACTED_URL]".toList },
    { category := .case_numbers,
      patterns :=
        [ (true, rseq [.wb, oneOf ["case", "ticket", "incident", "issue"], numCtxId,
            reptMin digitC 5, .wb]),
          (true, rseq [.wb, oneOf ["support", "service", "help"],
            opt (rseq [wsStar, oneOf ["ticket", "case", "request"]]), numCtxId,
            reptMin digitC 5, .wb]) ],
      replacement := "[REDACTED_CASE]".toList },
    { category := .claim_numbers,
      patterns :=
        [ (true, rseq [.wb, rstr "claim", numCtxId, reptMin digitC 5, .wb]),
          (true, rseq [.wb, oneOf ["warranty", "dispute", "refund"],
            opt (rseq [wsStar, oneOf ["claim", "case", "request"]]), numCtxId,
            reptMin digitC 5, .wb]) ],
      replacement := "[REDACTED_CLAIM]".toList },
    { category := .auth_codes,
      patterns :=
        [ (true, rseq [.wb,
            ralt [.seq (rstr "auth") (opt (rstr "orization")), rstr "approval"],
            rseq [opt (.lit '.'), wsStar,
                  opt (ralt [rstr "code", rstr "#", rstr "number",
                             .seq (rstr "no") (opt (.lit '.'))]),
                  opt (.lit ':'), wsStar],
            reptMin (cc [upperI, dig]) 4, .wb]),
          (true, rseq [.wb, oneOf ["transaction", "trans", "txn"],
            rseq [wsStar, opt (oneOf ["auth", "code", "#", "id"]), opt (.lit ':'),
                  wsStar],
            reptMin (cc [upperI, dig]) 5, .wb]) ],
      replacement := "[REDACTED_AUTH]".toList },
    { category := .device_ids,
      patterns :=
        [ (true, rseq [.wb,
            oneOf ["device", "hardware", "serial", "imei", "udid", "uuid"],
            rseq [star (cc [.space, .ch '-', .ch '_']),
                  opt (oneOf ["id", "number", "#"]), opt (.lit ':'), wsStar],
            reptMin azAZ09hy 6, .wb]),
          (false, rseq [.wb, rexact (rseq [rexact hexC 2, cc [.ch ':', .ch '-']]) 5,
            rexact hexC 2, .wb]) ],
      replacement := "[REDACTED_DEVICE]".toList },
    { category := .employee_ids,
      patterns :=
        [ (true, rseq [.wb, oneOf ["employee", "emp", "staff", "worker"],
            rseq [wsStar,
                  opt (ralt [rstr "id", rstr "#", rstr "number",
                             .seq (rstr "no") (opt (.lit '.'))]),
                  opt (rseq [wsStar, oneOf ["is", "number", ":"]]), wsStar],
            reptMin (cc [upperI, dig]) 5, .wb]),
          (true, rseq [.wb, rstr "student", idCtxFirst,
            reptMin (cc [upperI, dig]) 5, .wb]),
          (true, rseq [.wb, oneOf ["badge", "id"], numCtx,
            reptMin (cc [upperI, dig]) 5, .wb]) ],
      replacement := "[REDACTED_EMP_ID]".toList },
    { category := .email_addresses,
      patterns :=
        [ (false, rseq [.wb,
            plus1 (cc [upperI, lowerI, dig, .ch '.', .ch '_', .ch '%', .ch '+', .ch '-']),
            .lit '@', plus1 (cc [upperI, lowerI, dig, .ch '.', .ch '-']), .lit '.',
            reptMin (cc [upperI, .ch '|', lowerI]) 2, .wb]) ],
      replacement := "[REDACTED_EMAIL]".toList },
    { category := .dates_of_birth,
      patterns :=
        [ (true, rseq [.wb,
            ralt [rstr "dob", rseq [rstr "date", wsStar, rstr "of", wsStar, rstr "birth"],
                  rseq [rstr "birth", wsStar, rstr "date"], rstr "born", rstr "birthday"],
            rseq [wsStar, oneOf ["is", "was", ":"], wsStar],
            .rep digitC 1 (some 2), cc [.space, .ch '/', .ch '-', .ch '.'],
            .rep digitC 1 (some 2), cc [.space, .ch '/', .ch '-', .ch '.'],
            .rep digitC 2 (some 4), .wb]),
          (true, rseq [.wb, rstr "born", wsPlus, opt (rseq [rstr "on", wsPlus]),
            plus1 alphaC, wsPlus, .rep digitC 1 (some 2), opt (.lit ','), wsPlus,
            rexact digitC 4, .wb]),
          (true, rseq [.wb, oneOf ["birthday", "dob"],
            rseq [wsStar, opt (.lit ':'), wsStar],
            .rep digitC 1 (some 2), cc [.space, .ch '/', .ch '-'],
            .rep digitC 1 (some 2), cc [.space, .ch '/', .ch '-'],
            .rep digitC 2 (some 4), .wb]) ],
      replacement := "[REDACTED_DOB]".toList },
    { category := .ages,
      patterns :=
        [ (true, rseq [.wb,
            ralt [rseq [rstr "i", wsPlus, rstr "am"],
                  rseq [.lit 'i', .lit aposC, .lit 'm'],
                  rseq [rstr "he", wsPlus, rstr "is"],
                  rseq [rstr "she", wsPlus, rstr "is"],
                  rseq [rstr "they", wsPlus, rstr "are"]],
            wsPlus, .rep digitC 1 (some 3), wsPlus,
            ralt [rseq [rstr "year", opt (.lit 's'), wsPlus, rstr "old"],
                  rseq [rstr "yr", opt (.lit 's'), wsPlus, rstr "old"],
                  rseq [.lit 'y', opt (.lit '.'), .lit 'o', opt (.lit '.')]],
            .wb]),
          (true, rseq [.wb,
            ralt [.seq (rstr "age") (opt (.lit 'd')),
                  rseq [rstr "age", wsStar, .lit ':']],
            wsStar, .rep digitC 1 (some 3), .wb]),
          (true, rseq [.wb, .rep digitC 1 (some 3), opt sepHy, rstr "year", opt sepHy,
            rstr "old", .wb]) ],
      replacement := "[REDACTED_AGE]".toList },
    { category := .order_numbers,
      patterns :=
        [ (true, rseq [.wb,
            oneOf ["order", "confirmation", "invoice", "receipt", "transaction",
                   "purchase"],
            numCtxId, opt (.lit '('), .rep azAZ09hy 6 (some 20), opt (.lit ')'), .wb]),
          (true, rseq [.wb, oneOf ["order", "conf", "inv"],
            rseq [wsStar, opt (.lit '#'), wsStar],
            opt (.lit '('), .rep azAZ09hy 6 (some 20), opt (.lit ')'), .wb]),
          (true, rseq [.wb, oneOf ["reference", "ref"], numCtx,
            .rep azAZ09hy 6 (some 20), .wb]) ],
      replacement := "[REDACTED_ORDER]".toList },
    { category := .tracking_numbers,
      patterns :=
        [ (true, rseq [.wb, rstr "1Z", rexact (cc [upperI, dig]) 16, .wb]),
          (true, rseq [.wb, ralt [rstr "fedex", rseq [rstr "fed", wsStar, rstr "ex"]],
            trkCtx, .rep digitC 12 (some 34), .wb]),
          (true, rseq [.wb, oneOf ["usps", "postal"], trkCtx,
            .rep digitC 20 (some 22), .wb]),
          (true, rseq [.wb, oneOf ["tracking", "shipment"], numCtx,
            .rep (cc [upperI, dig]) 10 (some 30), .wb]),
          (true, rseq [.wb, rstr "dhl", trkCtx, .rep digitC 10 (some 11), .wb]) ],
      replacement := "[REDACTED_TRACKING]".toList },
    { category := .booking_references,
      patterns :=
        [ (true, rseq [.wb, oneOf ["pnr", "booking", "confirmation", "reservation"],
            rseq [wsStar, opt (oneOf ["#", "code", "number", "ref"]), opt (.lit ':'),
                  wsStar],
            rexact (cc [upperI, dig]) 6, .wb]),
          (true, rseq [.wb, oneOf ["flight", "airline"],
            rseq [wsStar, opt (oneOf ["confirmation", "booking", "ref"]),
                  opt (.lit ':'), wsStar],
            rexact (cc [upperI, dig]) 6, .wb]),
          (true, rseq [.wb, oneOf ["hotel", "resort", "airbnb"],
            rseq [wsStar, opt (oneOf ["confirmation", "booking", "reservation"]),
                  opt (.lit ':'), wsStar],
            .rep (cc [upperI, dig]) 6 (some 12), .wb]),
          (true, rseq [.wb, ralt [rseq [rstr "record", wsStar, rstr "locator"],
                                  rstr "locator"],
            rseq [wsStar, opt (.lit ':'), wsStar], rexact (cc [upperI, dig]) 6, .wb]) ],
      replacement := "[REDACTED_BOOKING]".toList },
    { category := .member_ids,
      patterns :=
        [ (true, rseq [.wb, oneOf ["member", "membership"], numCtxId,
            .rep azAZ09hy 6 (some 20), .wb]),
          (true, rseq [.wb,
            ralt [rstr "loyalty", .seq (rstr "reward") (opt (.lit 's')), rstr "points"],
            numCtxId, .rep azAZ09hy 6 (some 20), .wb]),
          (true, rseq [.wb, oneOf ["customer", "client", "user"], numCtxId,
            .rep azAZ09hy 6 (some 20), .wb]),
          (true, rseq [.wb, oneOf ["account", "acct"], numCtx,
            .rep azAZ09hy 6 (some 15), .wb]),
          (true, rseq [.wb, oneOf ["subscriber", "subscription"], numCtxId,
            .rep azAZ09hy 6 (some 20), .wb]),
          (true, rseq [.wb, oneOf ["RR", "FF", "MP", "SK", "AA", "UA", "DL", "WN"],
            rseq [wsStar, opt (.lit '#'), wsStar], .rep digitC 8 (some 12), .wb]),
          (true, rseq [.wb,
            ralt [rseq [rstr "rapid", wsStar, rstr "reward", opt (.lit 's')],
                  rseq [rstr "mileage", wsStar, rstr "plus"],
                  rseq [rstr "sky", wsStar, rstr "mile", opt (.lit 's')],
                  rstr "aadvantage",
                  rseq [rstr "frequent", wsStar, rstr "flyer"]],
            rseq [wsStar,
                  opt (ralt [rstr "#", rstr "number",
                             .seq (rstr "no") (opt (.lit '.')), rstr "id",
                             rstr "account"]),
                  opt (.lit ':'), wsStar],
            .rep digitC 8 (some 12), .wb]),
          (true, rseq [.wb, plus1 alphaC, wsStar, rstr "ID", opt (.lit ':'), wsStar,
            .rep azAZ09hy 4 (some 20), .wb]) ],
      replacement := "[REDACTED_MEMBER_ID]".toList },
    { category := .vehicle_ids,
      patterns :=
        [ (true, rseq [.wb,
            ralt [rstr "vin", rseq [rstr "vehicle", wsStar, rstr "identification"]],
            numCtx, rexact vinC 17, .wb]),
          (false, rseq [.wb, rexact vinC 17, .wb]),
          (true, rseq [.wb,
            ralt [rseq [rstr "license", wsStar, rstr "plate"],
                  rseq [rstr "plate", wsStar, ralt [rstr "#", rstr "number"]],
                  rstr "registration"],
            rseq [wsStar, opt (.lit ':'), wsStar],
            .rep (cc [upperI, dig, .ch '-', .space]) 4 (some 10), .wb]) ],
      replacement := "[REDACTED_VEHICLE]".toList },
    { category := .medical_ids,
      patterns :=
        [ (true, rseq [.wb,
            ralt [rstr "mrn", rseq [rstr "medical", wsStar, rstr "record"],
                  rseq [rstr "patient", wsStar, rstr "id"]],
            numCtx, .rep azAZ09hy 6 (some 20), .wb]),
          (true, rseq [.wb,
            ralt [rseq [rstr "insurance", wsStar, rstr "id"],
                  rseq [rstr "policy", wsStar, ralt [rstr "#", rstr "number"]],
                  rseq [rstr "member", wsStar, rstr "id"]],
            rseq [wsStar, opt (.lit ':'), wsStar], .rep azAZ09hy 6 (some 20), .wb]),
          (true, rseq [.wb, oneOf ["prescription", "rx"], numCtx,
            .rep azAZ09hy 6 (some 15), .wb]),
          (true, rseq [.wb, rstr "group", numCtx, .rep azAZ09hy 4 (some 15), .wb]) ],
      replacement := "[REDACTED_MEDICAL]".toList },
    { category := .financial_amounts,
      patterns :=
        [ (false, rseq [.lit '$', plus1 (cc [dig, .ch ',']), .lit '.',
            rexact digitC 2, .wb]),
          (false, rseq [.lit '$', plus1 (cc [dig, .ch ',']), .wb]),
          (false, rseq [.lit '$', wsStar, plus1 digitC, wsStar, .lit '.', wsStar,
            rexact digitC 2, .wb]),
          (true, rseq [.wb,
            oneOf ["amount", "balance", "total", "payment", "price", "cost", "fee",
                   "charge"],
            rseq [wsStar, opt (oneOf ["of", "is", "was", ":"]), wsStar],
            .lit '$', plus1 (cc [dig, .ch ',']),
            opt (rseq [.lit '.', rexact digitC 2]), .wb]) ],
      replacement := "[REDACTED_AMOUNT]".toList },
    { category := .regular_urls,
      patterns := [ (true, rseq [httpRe, plus1 nqC]) ],
      replacement := "[REDACTED_URL]".toList } ]

/-! The sanitize entry point, src/sanitizer.ts lines 687 to 748. -/

structure SanitizeOptions where
  enabled : Bool
  categories : List RedactionCategory
  deriving DecidableEq, Repr

def DEFAULT_SANITIZE_OPTIONS : SanitizeOptions :=
  { enabled := false, categories := DEFAULT_REDACTION_CATEGORIES }

/-- Result record of sanitizeText.  The per-category counts are an
association list so that which categories are present as keys is
observable, as it is on the JavaScript object. -/
structure SanitizeResult where
  text : Str
  redactionCount : Nat
  redactionsByCategory : List (RedactionCategory × Nat)
  deriving DecidableEq, Repr

/-- Accumulator of the pattern loop of sanitizeText. -/
structure SanAcc where
  text : Str
  total : Nat
  counts : List (RedactionCategory × Nat)
  deriving DecidableEq, Repr

/-- Add n to the entry of one category in the count map, src/sanitizer.ts
line 734; every category is present from initialization. -/
def bumpCount (cat : RedactionCategory) (n : Nat)
    (counts : List (RedactionCategory × Nat)) : List (RedactionCategory × Nat) :=
  counts.map (fun p => if p.1 = cat then (p.1, p.2 + n) else p)

/-- One regex step of the inner loop of sanitizeText, lines 727 to 740:
count the matches on the current text, add them to the running totals
when there are any, and replace all matches with the category
placeholder.  Counting and replacing enumerate the same match sequence,
so both come from one scan. -/
def applyOne (cat : RedactionCategory) (repl : Str) (acc : SanAcc)
    (pr : Bool × RE) : SanAcc :=
  let tn := applyRegex pr.1 pr.2 repl acc.text
  if tn.2 ≠ 0 then
    { text := tn.1, total := acc.total + tn.2, counts := bumpCount cat tn.2 acc.counts }
  else
    { text := tn.1, total := acc.total, counts := acc.counts }

/-- One category step of the outer loop of sanitizeText, lines 722 to
741: skipped entirely unless the category is enabled. -/
def applyPattern (options : SanitizeOptions) (acc : SanAcc)
    (pat : RedactionPattern) : SanAcc :=
  if options.categories.contains pat.category then
    pat.patterns.foldl (applyOne pat.category pat.replacement) acc
  else acc

/-- Per-category count map initialized to zero for every category of
the registry, src/sanitizer.ts lines 716 to 719. -/
def initCounts : List (RedactionCategory × Nat) :=
  ALL_REDACTION_CATEGORIES.map (fun c => (c, 0))

/-- sanitizeText from src/sanitizer.ts lines 703 to 748.  When
sanitizing is disabled or the text is empty the input is returned with
a zero total and an empty count map; otherwise every pattern of every
enabled category is applied in registry order against the current,
possibly already mutated, text. -/
def sanitizeText (text : Str) (options : SanitizeOptions) : SanitizeResult :=
  if !options.enabled || text.isEmpty then
    { text := text, redactionCount := 0, redactionsByCategory := [] }
  else
    let res := PATTERNS.foldl (applyPattern options)
      { text := text, total := 0, counts := initCounts }
    { text := res.text, redactionCount := res.total, redactionsByCategory := res.counts }

/-! Supporting lemmas: a regex pass that found no match leaves the text
unchanged, and the sanitize loops only grow the running total, with an
unchanged total forcing an unchanged text. -/

theorem scanAll_count_zero (ci : Bool) (re : RE) (repl : Str) :
    ∀ (fuel : Nat) (prev : Option Char) (s : Str),
      (scanAll ci re repl fuel prev s).2 = 0 → (scanAll ci re repl fuel prev s).1 = s := by
  intro fuel
  induction fuel with
  | zero => intro prev s _; rfl
  | succ n ih =>
    intro prev s
    simp only [scanAll]
    split
    · split
      · intro _; rfl
      · rename_i c rest heq
        intro h
        have h2 : (scanAll ci re repl n (some c) rest).2 = 0 := by simpa using h
        simp only
        rw [ih _ _ h2]
    · split
      · split
        · intro h; simp at h
        · intro h; simp at h
      · intro h; simp at h

theorem applyRegex_count_zero (ci : Bool) (re : RE) (repl : Str) (s : Str)
    (h : (applyRegex ci re repl s).2 = 0) : (applyRegex ci re repl s).1 = s :=
  scanAll_count_zero ci re repl (s.length + 1) none s h

theorem applyOne_total_le (cat : RedactionCategory) (repl : Str) (acc : SanAcc)
    (pr : Bool × RE) : acc.total ≤ (applyOne cat repl acc pr).total := by
  simp only [applyOne]
  split
  · exact Nat.le_add_right _ _
  · exact Nat.le_refl _

theorem applyOne_total_eq_text (cat : RedactionCategory) (repl : Str) (acc : SanAcc)
    (pr : Bool × RE) (h : (applyOne cat repl acc pr).total = acc.total) :
    (applyOne cat repl acc pr).text = acc.text := by
  simp only [applyOne] at h ⊢
  split at h
  · rename_i hn
    have h2 : acc.total + (applyRegex pr.1 pr.2 repl acc.text).2 = acc.total := h
    exact absurd h2 (by omega)
  · rename_i hn
    rw [if_neg hn]
    exact applyRegex_count_zero _ _ _ _ (by omega)

theorem foldl_applyOne_total_le (cat : RedactionCategory) (repl : Str)
    (l : List (Bool × RE)) : ∀ acc : SanAcc,
    acc.total ≤ (l.foldl (applyOne cat repl) acc).total := by
  induction l with
  | nil => intro acc; exact Nat.le_refl _
  | cons p ps ih =>
    intro acc
    exact Nat.le_trans (applyOne_total_le cat repl acc p) (ih _)

theorem foldl_applyOne_total_eq_text (cat : RedactionCategory) (repl : Str)
    (l : List (Bool × RE)) : ∀ acc : SanAcc,
    (l.foldl (applyOne cat repl) acc).total = acc.total →
    (l.foldl (applyOne cat repl) acc).text = acc.text := by
  induction l with
  | nil => intro acc _; rfl
  | cons p ps ih =>
    intro acc h
    simp only [List.foldl_cons] at h ⊢
    have h1 : (applyOne cat repl acc p).total = acc.total := by
      have := applyOne_total_le cat repl acc p
      have := foldl_applyOne_total_le cat repl ps (applyOne cat repl acc p)
      omega
    rw [ih _ (by omega), applyOne_total_eq_text _ _ _ _ h1]

theorem applyPattern_total_le (options : SanitizeOptions) (acc : SanAcc)
    (pat : RedactionPattern) : acc.total ≤ (applyPattern options acc pat).total := by
  unfold applyPattern
  split
  · exact foldl_applyOne_total_le _ _ _ _
  · exact Nat.le_refl _

theorem applyPattern_total_eq_text (options : SanitizeOptions) (acc : SanAcc)
    (pat : RedactionPattern) (h : (applyPattern options acc pat).total = acc.total) :
    (applyPattern options acc pat).text = acc.text := by
  unfold applyPattern at h ⊢
  split at h
  · rename_i hc
    rw [if_pos hc]
    exact foldl_applyOne_total_eq_text _ _ _ _ h
  · rename_i hc
    rw [if_neg hc]

theorem foldl_applyPattern_total_le (options : SanitizeOptions)
    (l : List RedactionPattern) : ∀ acc : SanAcc,
    acc.total ≤ (l.foldl (applyPattern options) acc).total := by
  induction l with
  | nil => intro acc; exact Nat.le_refl _
  | cons p ps ih =>
    intro acc
    exact Nat.le_trans (applyPattern_total_le options acc p) (ih _)

theorem foldl_applyPattern_total_eq_text (options : SanitizeOptions)
    (l : List RedactionPattern) : ∀ acc : SanAcc,
    (l.foldl (applyPattern options) acc).total = acc.total →
    (l.foldl (applyPattern options) acc).text = acc.text := by
  induction l with
  | nil => intro acc _; rfl
  | cons p ps ih =>
    intro acc h
    simp only [List.foldl_cons] at h ⊢
    have h1 : (applyPattern options acc p).total = acc.total := by
      have := applyPattern_total_le options acc p
      have := foldl_applyPattern_total_le options ps (applyPattern options acc p)
      omega
    rw [ih _ (by omega), applyPattern_total_eq_text _ _ _ h1]

theorem sanitizeText_count_zero_text (t : Str) (c : SanitizeOptions)
    (h : (sanitizeText t c).redactionCount = 0) : (sanitizeText t c).text = t := by
  unfold sanitizeText at h ⊢
  split at h
  · rw [if_pos (by assumption)]
  · rename_i hc
    rw [if_neg hc]
    simp only at h ⊢
    exact foldl_applyPattern_total_eq_text c PATTERNS _ h

def attStep (acc : List Str × Nat) (q : MessagePart) : List Str × Nat :=
  if looksLikeAttachment q then (setAdd acc.1 (extOf q), acc.2 + 1) else acc

mutual
theorem walkAtt_eq_foldl : ∀ (p : MessagePart) (acc : List Str × Nat),
    walkAtt p acc = (partsList p).foldl attStep acc
  | .mk m f b ps, acc => by
    rw [walkAtt, partsList, List.foldl_cons, walkAttList_eq_foldl ps]
    rfl
theorem walkAttList_eq_foldl : ∀ (ps : List MessagePart) (acc : List Str × Nat),
    walkAttList ps acc = (partsListL ps).foldl attStep acc
  | [], acc => by rw [walkAttList, partsListL]; rfl
  | p :: ps, acc => by
    rw [walkAttList, partsListL, List.foldl_append, walkAtt_eq_foldl p,
        walkAttList_eq_foldl ps]
end

theorem foldl_attStep_count (l : List MessagePart) :
    ∀ acc : List Str × Nat,
    (l.foldl attStep acc).2 = acc.2 + (l.filter (fun q => looksLikeAttachment q)).length := by
  induction l with
  | nil => intro acc; simp
  | cons q qs ih =>
    intro acc
    simp only [List.foldl_cons, List.filter_cons]
    by_cases hq : looksLikeAttachment q
    · rw [if_pos hq, ih]
      simp [attStep, hq]
      omega
    · rw [if_neg hq, ih]
      simp [attStep, hq]

theorem mem_setAdd (l : List Str) (x e : Str) : e ∈ setAdd l x ↔ e ∈ l ∨ e = x := by
  unfold setAdd
  by_cases hc : l.contains x
  · rw [if_pos hc]
    constructor
    · exact fun h => Or.inl h
    · rintro (h | rfl)
      · exact h
      · simpa using hc
  · rw [if_neg hc]
    simp

theorem foldl_attStep_types (l : List MessagePart) :
    ∀ (acc : List Str × Nat) (e : Str),
    e ∈ (l.foldl attStep acc).1 ↔
      e ∈ acc.1 ∨ ∃ q ∈ l, looksLikeAttachment q = true ∧ extOf q = e := by
  induction l with
  | nil => intro acc e; simp
  | cons q qs ih =>
    intro acc e
    simp only [List.foldl_cons]
    rw [ih]
    unfold attStep
    by_cases hq : looksLikeAttachment q
    · rw [if_pos hq]
      simp only [mem_setAdd]
      constructor
      · rintro ((h | rfl) | ⟨r, hr, har, hee⟩)
        · exact Or.inl h
        · exact Or.inr ⟨q, List.mem_cons_self _ _, hq, rfl⟩
        · exact Or.inr ⟨r, List.mem_cons_of_mem _ hr, har, hee⟩
      · rintro (h | ⟨r, hr, har, hee⟩)
        · exact Or.inl (Or.inl h)
        · rcases List.mem_cons.mp hr with rfl | hr2
          · exact Or.inl (Or.inr hee.symm)
          · exact Or.inr ⟨r, hr2, har, hee⟩
    · rw [if_neg hq]
      constructor
      · rintro (h | ⟨r, hr, har, hee⟩)
        · exact Or.inl h
        · exact Or.inr ⟨r, List.mem_cons_of_mem _ hr, har, hee⟩
      · rintro (h | ⟨r, hr, har, hee⟩)
        · exact Or.inl h
        · rcases List.mem_cons.mp hr with rfl | hr2
          · exact absurd har hq
          · exact Or.inr ⟨r, hr2, har, hee⟩

theorem mem_insSorted (x e : Str) : ∀ l : List Str, e ∈ insSorted x l ↔ e = x ∨ e ∈ l := by
  intro l
  induction l with
  | nil => simp [insSorted]
  | cons y ys ih =>
    unfold insSorted
    by_cases hc : strLe y x
    · rw [if_pos hc]
      simp only [List.mem_cons, ih]
      tauto
    · rw [if_neg hc]
      simp

theorem mem_sortStrs (l : List Str) (e : Str) : e ∈ sortStrs l ↔ e ∈ l := by
  unfold sortStrs
  suffices h : ∀ acc, e ∈ l.foldl (fun acc x => insSorted x acc) acc ↔ e ∈ acc ∨ e ∈ l by
    simpa using h []
  induction l with
  | nil => intro acc; simp
  | cons x xs ih =>
    intro acc
    simp only [List.foldl_cons, ih, mem_insSorted, List.mem_cons]
    tauto

/-- The self-node step of the body-extraction walk. -/
def segStep (acc : List Str × List Str) (q : MessagePart) : List Str × List Str :=
  let mimeType := toLowerStr (q.mimeType.getD [])
  let data := partData q
  if !isAttachmentForBody q && !data.isEmpty then
    let text := decodeBase64Url data
    if mimeType = "text/plain".toList then (acc.1 ++ [text], acc.2)
    else if mimeType = "text/html".toList then (acc.1, acc.2 ++ [text])
    else acc
  else acc

/-- A part contributes a plain segment iff it is not an attachment for
body purposes, has inline data, and its lowercased mime type is exactly
text slash plain. -/
def plainPredB (q : MessagePart) : Bool :=
  (!isAttachmentForBody q && !(partData q).isEmpty) &&
    decide (toLowerStr (q.mimeType.getD []) = "text/plain".toList)

def htmlPredB (q : MessagePart) : Bool :=
  (!isAttachmentForBody q && !(partData q).isEmpty) &&
    decide (toLowerStr (q.mimeType.getD []) = "text/html".toList)

mutual
theorem walkSeg_eq_foldl : ∀ (p : MessagePart) (acc : List Str × List Str),
    walkSeg p acc = (partsList p).foldl segStep acc
  | .mk m f b ps, acc => by
    rw [walkSeg, partsList, List.foldl_cons, walkSegList_eq_foldl ps]
    rfl
theorem walkSegList_eq_foldl : ∀ (ps : List MessagePart) (acc : List Str × List Str),
    walkSegList ps acc = (partsListL ps).foldl segStep acc
  | [], acc => by rw [walkSegList, partsListL]; rfl
  | p :: ps, acc => by
    rw [walkSegList, partsListL, List.foldl_append, walkSeg_eq_foldl p,
        walkSegList_eq_foldl ps]
end

theorem foldl_segStep_plain (l : List MessagePart) :
    ∀ acc : List Str × List Str,
    (l.foldl segStep acc).1
      = acc.1 ++ (l.filter plainPredB).map (fun q => decodeBase64Url (partData q)) := by
  induction l with
  | nil => intro acc; simp
  | cons q qs ih =>
    intro acc
    simp only [List.foldl_cons, List.filter_cons]
    by_cases hc : (!isAttachmentForBody q && !(partData q).isEmpty) = true
    · by_cases hp : toLowerStr (q.mimeType.getD []) = "text/plain".toList
      · have hstep : segStep acc q = (acc.1 ++ [decodeBase64Url (partData q)], acc.2) := by
          simp only [segStep]
          rw [if_pos hc, if_pos hp]
        have hpred : plainPredB q = true := by
          simp only [plainPredB]
          rw [hc, decide_eq_true hp]
          rfl
        rw [ih (segStep acc q), hstep, if_pos hpred]
        simp
      · have hpred : plainPredB q = false := by
          simp only [plainPredB]
          rw [decide_eq_false hp, Bool.and_false]
        have hstep : (segStep acc q).1 = acc.1 := by
          simp only [segStep]
          rw [if_pos hc, if_neg hp]
          by_cases hh : toLowerStr (q.mimeType.getD []) = "text/html".toList
          · rw [if_pos hh]
          · rw [if_neg hh]
        rw [ih (segStep acc q), if_neg (by simp [hpred]), hstep]
    · have hpred : plainPredB q = false := by
        have hc2 : (!isAttachmentForBody q && !(partData q).isEmpty) = false := by
          simpa using hc
        simp only [plainPredB]
        rw [hc2, Bool.false_and]
      have hstep : segStep acc q = acc := by
        simp only [segStep]
        rw [if_neg hc]
      rw [ih (segStep acc q), hstep, if_neg (by simp [hpred])]

theorem foldl_segStep_html (l : List MessagePart) :
    ∀ acc : List Str × List Str,
    (l.foldl segStep acc).2
      = acc.2 ++ (l.filter htmlPredB).map (fun q => decodeBase64Url (partData q)) := by
  induction l with
  | nil => intro acc; simp
  | cons q qs ih =>
    intro acc
    simp only [List.foldl_cons, List.filter_cons]
    by_cases hc : (!isAttachmentForBody q && !(partData q).isEmpty) = true
    · by_cases hh : toLowerStr (q.mimeType.getD []) = "text/html".toList
      · have hp : ¬ toLowerStr (q.mimeType.getD []) = "text/plain".toList := by
          rw [hh]
          intro hbad
          exact absurd hbad (by decide)
        have hstep : segStep acc q = (acc.1, acc.2 ++ [decodeBase64Url (partData q)]) := by
          simp only [segStep]
          rw [if_pos hc, if_neg hp, if_pos hh]
        have hpred : htmlPredB q = true := by
          simp only [htmlPredB]
          rw [hc, decide_eq_true hh]
          rfl
        rw [ih (segStep acc q), hstep, if_pos hpred]
        simp
      · have hpred : htmlPredB q = false := by
          simp only [htmlPredB]
          rw [decide_eq_false hh, Bool.and_false]
        have hstep : (segStep acc q).2 = acc.2 := by
          simp only [segStep]
          rw [if_pos hc]
          by_cases hp : toLowerStr (q.mimeType.getD []) = "text/plain".toList
          · rw [if_pos hp]
          · rw [if_neg hp, if_neg hh]
        rw [ih (segStep acc q), if_neg (by simp [hpred]), hstep]
    · have hpred : htmlPredB q = false := by
        have hc2 : (!isAttachmentForBody q && !(partData q).isEmpty) = false := by
          simpa using hc
        simp only [htmlPredB]
        rw [hc2, Bool.false_and]
      have hstep : segStep acc q = acc := by
        simp only [segStep]
        rw [if_neg hc]
      rw [ih (segStep acc q), hstep, if_neg (by simp [hpred])]

def optPartsList : Option MessagePart → List MessagePart
  | none => []
  | some p => partsList p

/-! Concrete message parts used by the claim theorems. -/

def invoicePart : MessagePart :=
  .mk none (some "Invoice.PDF".toList) (some ⟨none, some 120, none⟩) []

def noextMimePart : MessagePart :=
  .mk (some "application/pdf".toList) (some "noext".toList)
    (some ⟨some "att1".toList, none, none⟩) []

def noextNoMimePart : MessagePart :=
  .mk none (some "noext".toList) (some ⟨some "att1".toList, none, none⟩) []

def wsNamePart : MessagePart :=
  .mk none (some " ".toList) (some ⟨none, some 120, none⟩) []

def docPart : MessagePart :=
  .mk (some "text/plain".toList) (some "doc".toList)
    (some ⟨none, some 0, some "aGk".toList⟩) []

def wsPlainPart : MessagePart :=
  .mk (some "text/plain".toList) none (some ⟨none, some 0, some "ICBoaSAg".toList⟩) []

def spacePlainPart : MessagePart :=
  .mk (some "text/plain".toList) none (some ⟨none, some 0, some "IA".toList⟩) []

def htmlBoldPart : MessagePart :=
  .mk (some "text/html".toList) none (some ⟨none, some 0, some "PGI-aGk8L2I-".toList⟩) []

def mixedTree : MessagePart := .mk none none none [spacePlainPart, htmlBoldPart]

def c2cfg : SanitizeOptions :=
  { enabled := true, categories := [.otp_codes, .phone_numbers] }

def c2text : Str := "code valid 2342345678 9876".toList

/-- C1, counterexample: with sanitizing disabled the text comes back
unchanged and the total is zero, but the per-category map is empty, so
it is not true that every category of the registry is present and
mapped to zero; credit_cards has no entry at all. -/
theorem c1_disabled_map_is_empty_cex :
    (sanitizeText "hello".toList DEFAULT_SANITIZE_OPTIONS).text = "hello".toList
    ∧ (sanitizeText "hello".toList DEFAULT_SANITIZE_OPTIONS).redactionCount = 0
    ∧ (sanitizeText "hello".toList DEFAULT_SANITIZE_OPTIONS).redactionsByCategory = []
    ∧ DEFAULT_SANITIZE_OPTIONS.enabled = false
    ∧ ¬ (∀ cat ∈ ALL_REDACTION_CATEGORIES,
          (sanitizeText "hello".toList
              DEFAULT_SANITIZE_OPTIONS).redactionsByCategory.lookup cat = some 0) := by
  refine ⟨rfl, rfl, rfl, rfl, ?_⟩
  intro h
  have h1 := h .credit_cards (by simp [ALL_REDACTION_CATEGORIES])
  exact Option.noConfusion (h1 : (none : Option Nat) = some 0)

/-- C1, amended: for every text and every config with the enabled flag
false, sanitize returns the text unchanged, a zero total, and an empty
per-category map with no categories present. -/
theorem c1_disabled_identity_empty_map :
    ∀ (t : Str) (opts : SanitizeOptions), opts.enabled = false →
    sanitizeText t opts = { text := t, redactionCount := 0, redactionsByCategory := [] } := by
  intro t opts h
  simp [sanitizeText, h]

theorem c1_disabled_identity_empty_map_witness :
    DEFAULT_SANITIZE_OPTIONS.enabled = false
    ∧ sanitizeText "abc".toList DEFAULT_SANITIZE_OPTIONS
        = { text := "abc".toList, redactionCount := 0, redactionsByCategory := [] } :=
  ⟨by decide, c1_disabled_identity_empty_map "abc".toList DEFAULT_SANITIZE_OPTIONS rfl⟩

/-- C10: for every config, sanitize on the empty text returns early
with the text unchanged, a zero total and an empty per-category map,
even when enabled is true and categories are enabled. -/
theorem c10_empty_text_early_return :
    ∀ opts : SanitizeOptions,
    sanitizeText [] opts = { text := [], redactionCount := 0, redactionsByCategory := [] } := by
  intro opts
  simp [sanitizeText]

/-- C2, counterexample: with the otp and phone categories enabled,
sanitizing the sanitizer output again is not a fixed point.  The first
pass replaces the ten digit phone-shaped run, after which the otp
pattern for code-dot-dot-dot-valid can bridge the placeholder through
its non-digit gap and capture the remaining four digits: the second
pass changes the text again and reports one further redaction, where
the claim demands an unchanged text and a zero count. -/
theorem c2_not_fixed_point_cex :
    (sanitizeText c2text c2cfg).text = "code valid [REDACTED_PHONE] 9876".toList
    ∧ (sanitizeText "code valid [REDACTED_PHONE] 9876".toList c2cfg).text
        = "[REDACTED_CODE]".toList
    ∧ (sanitizeText "code valid [REDACTED_PHONE] 9876".toList c2cfg).redactionCount = 1
    ∧ ("[REDACTED_CODE]".toList : Str) ≠ "code valid [REDACTED_PHONE] 9876".toList := by
  refine ⟨by decide, by decide, by decide, by decide⟩

/-- C2, amended: re-running sanitize on its own output with the same
config is a fixed point whenever the first run performed no redactions,
because a zero total forces every pattern pass to have left the text
unchanged.  In general it is not a fixed point: a pattern with a
non-digit gap can match across a placeholder token produced by another
category, as the counterexample shows. -/
theorem c2_fixed_point_when_no_redactions :
    ∀ (t : Str) (c : SanitizeOptions),
    (sanitizeText t c).redactionCount = 0 →
    sanitizeText (sanitizeText t c).text c = sanitizeText t c := by
  intro t c h
  rw [sanitizeText_count_zero_text t c h]

theorem c2_fixed_point_when_no_redactions_witness :
    (sanitizeText "hello".toList c2cfg).redactionCount = 0
    ∧ sanitizeText (sanitizeText "hello".toList c2cfg).text c2cfg
        = sanitizeText "hello".toList c2cfg :=
  ⟨by decide, c2_fixed_point_when_no_redactions "hello".toList c2cfg (by decide)⟩

/-- C3, counterexample: a filename consisting of one space is a
non-empty filename with positive body size, which the claim counts as
an attachment; the code trims the filename first and counts nothing. -/
theorem c3_whitespace_filename_cex :
    wsNamePart.filename = some " ".toList
    ∧ (" ".toList : Str) ≠ []
    ∧ partSize wsNamePart = 120
    ∧ (collectAttachmentTypes (some wsNamePart)).count = 0
    ∧ (collectAttachmentTypes (some wsNamePart)).hasAttachment = false := by
  refine ⟨rfl, by decide, rfl, rfl, rfl⟩

/-- C3, amended: over any part tree, the attachment count is exactly
the number of pre-order parts with a non-empty trimmed filename and an
attachment id or positive size, and the recorded type set holds exactly
the extensions of those parts, where the extension is the lowercase one
to ten character alphanumeric suffix after the last dot of the trimmed
filename, else the lowercase mime type when that is non-empty, else the
literal unknown; in particular filename Invoice.PDF with size 120 is an
attachment with extension pdf, and filename noext with an attachment id
yields the mime type or unknown. -/
theorem c3_attachment_classification :
    (∀ p : MessagePart,
      (collectAttachmentTypes (some p)).count
          = ((partsList p).filter (fun q => looksLikeAttachment q)).length
      ∧ ∀ e : Str, e ∈ (collectAttachmentTypes (some p)).types
          ↔ ∃ q ∈ partsList p, looksLikeAttachment q = true ∧ extOf q = e)
    ∧ collectAttachmentTypes (some invoicePart)
        = { hasAttachment := true, types := ["pdf".toList], count := 1 }
    ∧ collectAttachmentTypes (some noextMimePart)
        = { hasAttachment := true, types := ["application/pdf".toList], count := 1 }
    ∧ collectAttachmentTypes (some noextNoMimePart)
        = { hasAttachment := true, types := ["unknown".toList], count := 1 } := by
  refine ⟨?_, by decide, by decide, by decide⟩
  intro p
  constructor
  · show (walkAtt p ([], 0)).2 = _
    rw [walkAtt_eq_foldl, foldl_attStep_count]
    simp
  · intro e
    show e ∈ sortStrs (walkAtt p ([], 0)).1 ↔ _
    rw [mem_sortStrs, walkAtt_eq_foldl, foldl_attStep_types]
    simp

/-- C4, counterexample: a part with filename doc, no attachment id and
size zero is not an attachment under the claimed conjunction, carries
inline data and is exactly text/plain, so the claim says it contributes
a body segment; the body walk of the code tests the filename alone and
skips it, collecting nothing. -/
theorem c4_filename_only_part_skipped_cex :
    looksLikeAttachment docPart = false
    ∧ toLowerStr (docPart.mimeType.getD []) = "text/plain".toList
    ∧ (partData docPart).isEmpty = false
    ∧ decodeBase64Url (partData docPart) = "hi".toList
    ∧ collectSegments (some docPart) = ([], []) := by
  refine ⟨rfl, rfl, rfl, by decide, rfl⟩

/-- C4, amended: during body extraction exactly those pre-order parts
contribute a segment whose trimmed filename is empty and attachment id
absent (the body walk ignores the size, unlike the attachment
classifier), whose inline data is non-empty, and whose lowercased mime
type is exactly text/plain or text/html; every other part contributes
nothing but its children are still traversed, which the pre-order
characterization expresses. -/
theorem c4_body_segment_characterization :
    ∀ payload : Option MessagePart,
    (collectSegments payload).1
        = ((optPartsList payload).filter plainPredB).map
            (fun q => decodeBase64Url (partData q))
    ∧ (collectSegments payload).2
        = ((optPartsList payload).filter htmlPredB).map
            (fun q => decodeBase64Url (partData q)) := by
  intro payload
  cases payload with
  | none => exact ⟨rfl, rfl⟩
  | some p =>
    constructor
    · show (walkSeg p ([], [])).1 = _
      rw [walkSeg_eq_foldl, foldl_segStep_plain]
      rfl
    · show (walkSeg p ([], [])).2 = _
      rw [walkSeg_eq_foldl, foldl_segStep_html]
      rfl

/-- C5, counterexample: a tree with one plain segment of two spaces, hi
and two spaces produces the trimmed body hi, not the untouched newline
join demanded by the claim; and a tree whose only plain segment is one
space, with an html segment alongside, has plain segments yet its body
comes from the html branch, so html is not skipped entirely. -/
theorem c5_plain_join_not_as_is_cex :
    (collectSegments (some wsPlainPart)).1 = ["  hi  ".toList]
    ∧ extractBodyText (some wsPlainPart) 0 = "hi".toList
    ∧ ("hi".toList : Str) ≠ "  hi  ".toList
    ∧ (collectSegments (some mixedTree)).1 = [" ".toList]
    ∧ (collectSegments (some mixedTree)).2 = ["<b>hi</b>".toList]
    ∧ extractBodyText (some mixedTree) 0 = "hi".toList
    ∧ extractBodyText (some mixedTree) 0
        = htmlToTextKeepingLinks "<b>hi</b>".toList := by
  refine ⟨by decide, by decide, by decide, by decide, by decide, by decide, by decide⟩

/-- C5, amended: the extracted body is the trimmed newline join of the
plain segments when that trim is non-empty (html is then skipped);
otherwise it is htmlToTextKeepingLinks of the trimmed newline join of
the html segments, or empty when that is also empty; the truncation
bound is applied to this selection. -/
theorem c5_body_selection :
    ∀ (payload : Option MessagePart) (m : Nat),
    ((jsTrim (joinWith ['\n'] (collectSegments payload).1)).isEmpty = false →
      selectedBody payload = jsTrim (joinWith ['\n'] (collectSegments payload).1))
    ∧ ((jsTrim (joinWith ['\n'] (collectSegments payload).1)).isEmpty = true →
      selectedBody payload
        = (if (jsTrim (joinWith ['\n'] (collectSegments payload).2)).isEmpty then []
           else htmlToTextKeepingLinks
                  (jsTrim (joinWith ['\n'] (collectSegments payload).2))))
    ∧ extractBodyText payload m
        = (if m > 0 && decide ((selectedBody payload).length > m)
           then (selectedBody payload).take m else selectedBody payload) := by
  intro payload m
  refine ⟨?_, ?_, rfl⟩
  · intro h
    simp only [selectedBody]
    rw [if_neg (by simp [h])]
  · intro h
    simp only [selectedBody]
    rw [if_pos h]

theorem c5_body_selection_witness :
    (jsTrim (joinWith ['\n'] (collectSegments (some wsPlainPart)).1)).isEmpty = false
    ∧ selectedBody (some wsPlainPart)
        = jsTrim (joinWith ['\n'] (collectSegments (some wsPlainPart)).1) :=
  ⟨by decide, (c5_body_selection (some wsPlainPart) 0).1 (by decide)⟩

/-- C6, counterexample: the raw header Hello World holds no email-like
substring and the angle form does not apply, yet parseEmail returns an
empty display name rather than the trimmed raw string the claim
demands. -/
theorem c6_no_email_name_not_raw_cex :
    findFirst true emailRe "Hello World".toList = none
    ∧ jsTrim "Hello World".toList = "Hello World".toList
    ∧ ("Hello World".toList : Str) ≠ []
    ∧ parseEmail "Hello World".toList = ([], []) := by
  refine ⟨by decide, by decide, by decide, by decide⟩

/-- C6, amended: when the angle bracket form does not produce two
non-empty groups and no email-like substring is found in the trimmed
raw header, parseEmail returns an empty email and an empty display
name, not the trimmed raw string. -/
theorem c6_no_email_empty_result :
    ∀ raw : Str,
    (match angleSplit (jsTrim raw) with
     | some pr => pr.1.isEmpty
     | none => true) = true →
    findFirst true emailRe (jsTrim raw) = none →
    parseEmail raw = ([], []) := by
  intro raw h1 h2
  simp only [parseEmail, parseEmailFallback]
  rw [h2]
  revert h1
  cases ha : angleSplit (jsTrim raw) with
  | none => intro _; rfl
  | some pr =>
    obtain ⟨m1, m2⟩ := pr
    intro h1
    have h1b : m1.isEmpty = true := h1
    simp [h1b]

theorem c6_no_email_empty_result_witness :
    (match angleSplit (jsTrim "Hello World".toList) with
     | some pr => pr.1.isEmpty
     | none => true) = true
    ∧ findFirst true emailRe (jsTrim "Hello World".toList) = none
    ∧ parseEmail "Hello World".toList = ([], []) :=
  ⟨by decide, by decide,
    c6_no_email_empty_result "Hello World".toList (by decide) (by decide)⟩

/-- C7: for every payload and bound, a positive bound caps the body at
that many characters, the cut is the prefix of the fully normalized
untruncated body (so truncation happens strictly after normalization),
and a zero bound imposes no limit. -/
theorem c7_truncation_after_normalization :
    ∀ (payload : Option MessagePart) (m : Nat),
    (0 < m → (extractBodyText payload m).length ≤ m)
    ∧ extractBodyText payload m
        = (if 0 < m then (extractBodyText payload 0).take m
           else extractBodyText payload 0) := by
  intro payload m
  have h0 : extractBodyText payload 0 = selectedBody payload := rfl
  constructor
  · intro hm
    simp only [extractBodyText]
    split
    · simp only [List.length_take]
      exact Nat.min_le_left m (selectedBody payload).length
    · rename_i hcond
      have hlen : ¬ (selectedBody payload).length > m := by
        intro hl
        exact hcond (by simp [hm, hl])
      omega
  · by_cases hm : 0 < m
    · rw [if_pos hm, h0]
      simp only [extractBodyText]
      split
      · rfl
      · rename_i hcond
        have hle : (selectedBody payload).length ≤ m := by
          by_contra hgt
          exact hcond (by simp [hm]; omega)
        rw [List.take_of_length_le hle]
    · rw [if_neg hm]
      have hz : m = 0 := by omega
      rw [hz]

theorem c7_truncation_witness :
    0 < 1 ∧ (extractBodyText (some wsPlainPart) 1).length ≤ 1 :=
  ⟨by decide, (c7_truncation_after_normalization (some wsPlainPart) 1).1 (by decide)⟩

/-- C8: decodeBase64Url is a total function on every input string; it
translates dash to plus and underscore to slash leaving every other
character unchanged, its deterministic padding always brings the
translated string to a length divisible by four regardless of input
validity, and the result is the UTF-8 reading of the base64 decoding of
that padded string, in which out-of-alphabet bytes are skipped rather
than raising. -/
theorem c8_decode_base64url_total :
    ∀ s : Str,
    ((s.map translateB64) ++ b64Pad (s.map translateB64)).length % 4 = 0
    ∧ translateB64 '-' = '+'
    ∧ translateB64 '_' = '/'
    ∧ (∀ c : Char, c ≠ '-' → c ≠ '_' → translateB64 c = c)
    ∧ decodeBase64Url s
        = utf8Decode (sextetsToBytes
            (((s.map translateB64) ++ b64Pad (s.map translateB64)).filterMap b64Val)) := by
  intro s
  refine ⟨?_, rfl, rfl, ?_, rfl⟩
  · unfold b64Pad
    by_cases h : (s.map translateB64).length % 4 = 0
    · rw [if_pos h]
      simpa using h
    · rw [if_neg h]
      simp only [List.length_append, List.length_replicate]
      omega
  · intro c h1 h2
    simp [translateB64, h1, h2]

theorem c8_decode_base64url_total_witness :
    ('x' ≠ '-' ∧ 'x' ≠ '_') ∧ translateB64 'x' = 'x'
    ∧ ((("a_-".toList).map translateB64) ++ b64Pad (("a_-".toList).map translateB64)).length % 4 = 0 :=
  ⟨⟨by decide, by decide⟩,
    (c8_decode_base64url_total "a".toList).2.2.2.1 'x' (by decide) (by decide),
    (c8_decode_base64url_total "a_-".toList).1⟩

/-- C9: inside the ordered pattern list of the physical_addresses
category, which is the address patterns followed by the city patterns,
the bare five or nine digit ZIP regex sits at index seven of the
twenty-one address patterns and therefore runs before every city
pattern; on the input Carlsbad, XX 92008, which has the shape city,
two-letter code, ZIP, the Carlsbad city pattern matches the original
text, the bare ZIP pattern consumes and redacts the ZIP digits first,
and the city pattern no longer matches the mutated text, so the whole
category pass performs exactly the one bare ZIP redaction. -/
theorem c9_bare_zip_before_city_patterns :
    (PATTERNS.get? 7).map RedactionPattern.category = some .physical_addresses
    ∧ (PATTERNS.get? 7).map RedactionPattern.patterns
        = some (ADDRESS_PATTERNS ++ CITY_PATTERNS)
    ∧ ADDRESS_PATTERNS.length = 21
    ∧ ADDRESS_PATTERNS.get? 7 = some (false, bareZipRe)
    ∧ cityPattern "Carlsbad" ∈ CITY_PATTERNS
    ∧ regexTest (cityPattern "Carlsbad").1 (cityPattern "Carlsbad").2
        "Carlsbad, XX 92008".toList = true
    ∧ applyRegex false bareZipRe "[REDACTED_ADDRESS]".toList "Carlsbad, XX 92008".toList
        = ("Carlsbad, XX [REDACTED_ADDRESS]".toList, 1)
    ∧ regexTest (cityPattern "Carlsbad").1 (cityPattern "Carlsbad").2
        "Carlsbad, XX [REDACTED_ADDRESS]".toList = false
    ∧ (sanitizeText "Carlsbad, XX 92008".toList
        { enabled := true, categories := [.physical_addresses] }).text
        = "Carlsbad, XX [REDACTED_ADDRESS]".toList
    ∧ (sanitizeText "Carlsbad, XX 92008".toList
        { enabled := true, categories := [.physical_addresses] }).redactionCount = 1 := by
  refine ⟨by decide, by decide, by decide, by decide, by decide, by decide, by decide,
    by decide, by decide, by decide⟩
